import Mathlib

/-!
Verification development for the resumable batch delivery engine of the
`importacaoDeDados` repository.

The development shallowly embeds the JavaScript sources:

* `src/core/httpClient.js` — retrying transport client (`httpJson`,
  `runWithRetries`, `isRetryableStatus`, `isTransientNetworkError`,
  `parseRetryAfterMs`, `computeBackoffWithJitterMs`);
* `src/utils/flowchDirectSender.js` — windowed batch sender
  (`dividirEmLotes`, `enviarLote`, `sendBatchesDirectToFlowch`);
* `src/services/envioDiretoService.js` — duplicate-aware adaptive sender and
  resumable controller (`extractCounts`, `isWholeBatchDuplicate`,
  `calcEffectiveTimeout`, `sendDuplicateAware`, `executarEnvioDireto`).

Modelling conventions:

* JavaScript numbers that the engine manipulates are integral counters,
  statuses and millisecond amounts; they are embedded as `Int` (or `Nat`
  where the source can only produce non-negative values).  Fractional or
  exotic numeric strings are outside the model.
* Impure reads (wall-clock budget via `Date.now()`, HTTP responses) are
  oracles: a budget stream indexed by the number of budget computations
  performed so far, and a call oracle indexed by the number of HTTP calls
  issued so far together with the posted window payload.  Threading the
  two counters through the functions makes every run deterministic and
  executable.
* Response bodies are the tagged variant `raw string / parsed JSON`: a
  `raw` body is one `JSON.parse` rejected (or that does not start with
  an object/array opener), so every later re-parse of it also yields `{}`.
  `JSON.parse` itself is not re-modelled.
* Logging, header echo of diagnostic fields not used by any caller, and
  `durationMs` telemetry are not modelled.
-/

/-! ### Character-level helpers for JavaScript string semantics

Lean's built-in `String.toUpper`/`toLower` do not reduce inside the kernel,
so the JavaScript string operations used by the engine are modelled on the
underlying character lists. -/

/-- `String.prototype.toUpperCase` (ASCII range, which covers every literal
the engine compares against). -/
def jsStrUpper (s : String) : String := String.mk (s.data.map Char.toUpper)

/-- `String.prototype.toLowerCase` (ASCII range). -/
def jsStrLower (s : String) : String := String.mk (s.data.map Char.toLower)

/-- Does the second list occur as a prefix of the first argument list? -/
def charsStartsWith : List Char → List Char → Bool
  | [], _ => true
  | _ :: _, [] => false
  | p :: ps, c :: cs => p == c && charsStartsWith ps cs

/-- Does `pat` occur as a contiguous run inside the scanned list? -/
def charsContains (pat : List Char) : List Char → Bool
  | [] => charsStartsWith pat []
  | c :: cs => charsStartsWith pat (c :: cs) || charsContains pat cs

/-- `String.prototype.includes` (also used to model regexp literal tests). -/
def strIncludes (s pat : String) : Bool := charsContains pat.data s.data

/-! ### JSON values

`JSON.parse` output is a tree of objects, arrays, strings, numbers,
booleans and null.  Numbers are embedded as `Int` (see the header). -/

inductive Json where
  | null
  | bool (b : Bool)
  | num (n : Int)
  | str (s : String)
  | arr (items : List Json)
  | obj (fields : List (String × Json))

/-- JavaScript truthiness of a JSON value (`null`, `false`, `0` and the
empty string are falsy; every object and array is truthy). -/
def jsTruthy : Json → Bool
  | .null => false
  | .bool b => b
  | .num n => n != 0
  | .str s => s != ""
  | .arr _ => true
  | .obj _ => true

/-- Property access `j[key]` on a JSON value: defined on objects, and
`undefined` (`none`) elsewhere, matching `?.` chains on parsed JSON.
`JSON.parse` keeps the last of duplicate keys, hence the reversed lookup. -/
def jsGet (j : Json) (key : String) : Option Json :=
  match j with
  | .obj fields => (fields.reverse.find? (fun p => p.1 = key)).map (·.2)
  | _ => none

/-- Index access `j?.[i]` as used on the `errors` field: defined on arrays
(`undefined` elsewhere; string/object numeric indexing is never exercised
by the engine and is not modelled). -/
def jsIndex (j : Json) (i : Nat) : Option Json :=
  match j with
  | .arr items => items.get? i
  | _ => none

/-- `String(v)` coercion of a JSON value.  Array elements are joined with
commas, with `null` elements rendered empty, as in JavaScript. -/
def jsToString : Json → String
  | .null => "null"
  | .bool b => cond b "true" "false"
  | .num n => toString n
  | .str s => s
  | .arr items => String.intercalate ","
      (items.attach.map (fun x =>
        match x with
        | ⟨.null, _⟩ => ""
        | ⟨j, _⟩ => jsToString j))
  | .obj _ => "[object Object]"
termination_by j => sizeOf j

/-- Escape of `"` and `\` as performed by `JSON.stringify` on strings
(control-character escapes are not exercised by the engine). -/
def jsonEscape (s : String) : String :=
  String.mk (s.data.flatMap (fun c =>
    if c = '"' then ['\\', '"'] else if c = '\\' then ['\\', '\\'] else [c]))

/-- `JSON.stringify` of a JSON value. -/
def jsStringify : Json → String
  | .null => "null"
  | .bool b => cond b "true" "false"
  | .num n => toString n
  | .str s => "\"" ++ jsonEscape s ++ "\""
  | .arr items => "[" ++ String.intercalate ","
      (items.attach.map (fun x =>
        match x with
        | ⟨j, _⟩ => jsStringify j)) ++ "]"
  | .obj fields => "\x7b" ++ String.intercalate ","
      (fields.attach.map (fun x =>
        match x with
        | ⟨(k, v), _⟩ => "\"" ++ jsonEscape k ++ "\":" ++ jsStringify v)) ++ "\x7d"
termination_by j => sizeOf j
decreasing_by
  all_goals first
  | decreasing_tactic
  | (rename_i h
     have h1 := List.sizeOf_lt_of_mem h
     simp only [Prod.mk.sizeOf_spec] at h1
     simp only [Json.obj.sizeOf_spec]
     omega)

/-- `Number(s)` on a string, composed with the `Number.isFinite` guard of
the source's `num` helper: empty/whitespace gives `0`, an integral literal
gives its value, anything else gives `0` (non-finite parse). -/
def strToNumOr0 (s : String) : Int :=
  let t := String.mk (s.data.filter (fun c => !(c = ' ')))
  if t = "" then 0 else (t.toInt?).getD 0

/-- The source's `num` helper applied to an optionally-present JSON value:
`num = (v) => { const n = Number(v); return Number.isFinite(n) ? n : 0; }`.
`undefined`/`null`/objects coerce to `0`, booleans to `0/1`, numbers to
themselves, strings and arrays through `String()`. -/
def num (v : Option Json) : Int :=
  match v with
  | none => 0
  | some .null => 0
  | some (.bool b) => cond b 1 0
  | some (.num n) => n
  | some (.str s) => strToNumOr0 s
  | some (.arr items) => strToNumOr0 (jsToString (.arr items))
  | some (.obj _) => 0

/-- JavaScript `a || b` on numbers (first operand when non-zero). -/
def jsOr (a b : Int) : Int := if a ≠ 0 then a else b

/-! ### Response bodies

`flowchDirectSender.tryParseJson` turns an HTTP body string into parsed
JSON when the trimmed string starts with an object/array opener and
`JSON.parse` succeeds, and leaves the raw string otherwise.  The variant
below carries the result of that classification. -/

inductive Body where
  | raw (s : String)
  | parsed (j : Json)

/-- JavaScript truthiness of a body value (a raw string is truthy when
non-empty, a parsed value by `jsTruthy`). -/
def bodyTruthy : Body → Bool
  | .raw s => s != ""
  | .parsed j => jsTruthy j

/-- `safeParseIfJson` of `envioDiretoService.js` applied to a delivered
body.  A non-string input is returned as `maybeJson || {}`; a string input
is parsed only when it starts with the object/array opener — and a `raw`
body is precisely one such a parse already rejected, so it yields `{}`. -/
def safeParseIfJson : Body → Json
  | .raw _ => .obj []
  | .parsed j => if jsTruthy j then j else .obj []

/-- The mutation/duplicate counters extracted from one response body.
The source's `extractCounts` also returns the parsed body itself, which no
caller reads; that field is dropped here. -/
structure Counts where
  inserted : Int
  updated : Int
  deleted : Int
  alreadyExists : Int

/-- Duplicate signals of one `errors[]` entry: the entry's
`erro.posapp_fields_error_message` array contributes one unit for every
item whose first value coerces to the string `ALREADY_EXISTS`. -/
def alreadyExistsOfError (e : Json) : Int :=
  match (jsGet e "erro").bind (fun o => jsGet o "posapp_fields_error_message") with
  | some (.arr items) =>
      (items.map (fun item =>
        let firstVal : Option Json :=
          match (if bodyTruthy (.parsed item) then item else .obj []) with
          | .obj fields => (fields.map (·.2)).head?
          | _ => none
        let val := jsStrUpper (match firstVal with
          | some v => jsToString v
          | none => "")
        if val = "ALREADY_EXISTS" then (1 : Int) else 0)).sum
  | _ => 0

/-- `extractCounts` of `envioDiretoService.js` (current revision): reads
the prioritized `recordsInserted` fallback chain, `recordsUpdated`,
`recordsDeleted`, and counts duplicates solely through
`posapp_fields_error_message` values equal to `ALREADY_EXISTS`. -/
def extractCounts (bodyRaw : Body) : Counts :=
  let body := safeParseIfJson bodyRaw
  let inserted :=
    jsOr (num (jsGet body "recordsInserted"))
      (jsOr (num ((jsGet body "data").bind (fun d => jsGet d "recordsInserted")))
        (jsOr (num ((jsGet body "summary").bind (fun d => jsGet d "recordsInserted")))
          (jsOr (match jsGet body "records" with
                 | some (.arr items) => (items.length : Int)
                 | _ => 0)
            (jsOr (num (jsGet body "received"))
              (num (jsGet body "accepted"))))))
  let updated := num (jsGet body "recordsUpdated")
  let deleted := num (jsGet body "recordsDeleted")
  let errorsArr : List Json :=
    match jsGet body "errors" with
    | some (.arr items) => items
    | _ =>
      match (jsGet body "data").bind (fun d => jsGet d "errors") with
      | some (.arr items) => items
      | _ => []
  let alreadyExists := (errorsArr.map alreadyExistsOfError).sum
  { inserted := inserted, updated := updated, deleted := deleted,
    alreadyExists := alreadyExists }

/-- `isWholeBatchDuplicate` of `envioDiretoService.js`: the whole batch is
duplicate when there are no confirmed changes, the batch was non-empty and
the duplicate count reaches the number of records sent (the explicit
`statusCode === 400` arm subsumes into the final test, and is kept for
faithfulness). -/
def isWholeBatchDuplicate (sent : Nat) (counts : Counts) (statusCode : Int) : Bool :=
  let totalChanges := counts.inserted + counts.updated + counts.deleted
  if totalChanges > 0 then false
  else if sent ≤ 0 then false
  else if statusCode = 400 ∧ counts.alreadyExists ≥ (sent : Int) then true
  else counts.alreadyExists ≥ (sent : Int)

/-- `getStatus` of `envioDiretoService.js` specialised to the delivered
results of `sendBatchesDirectToFlowch`, whose `statusCode` field is already
the normalised number. -/
def getStatus (statusCode : Int) : Int := statusCode

/-- `isOk`: a 2xx status. -/
def isOk (statusCode : Int) : Bool :=
  200 ≤ getStatus statusCode && getStatus statusCode < 300

/-- `isCountedAsError` under the default `ACCEPT_MODE='optimistic'`: only a
missing status (0) or the synthetic 599 counts as an error.  (The `strict`
mode differs only in this telemetry counter and is not modelled.) -/
def isCountedAsError (statusCode : Int) : Bool :=
  getStatus statusCode = 0 || getStatus statusCode = 599

/-! ### Transport client (`src/core/httpClient.js`)

One attempt of `httpJson` either resolves with a response or rejects with
a network error carrying an error `code`.  The per-attempt outcomes are an
oracle indexed by the attempt number. -/

/-- The `Retry-After` response header as consumed by `parseRetryAfterMs`:
absent, an integral number of seconds, or an HTTP-date (already converted
to epoch milliseconds by `Date.parse`). -/
inductive RetryAfterHdr where
  | absent
  | seconds (s : Int)
  | httpDate (epochMs : Int)

/-- The slice of a response that the retry loop inspects. -/
structure ClientResp where
  statusCode : Int
  retryAfter : RetryAfterHdr

/-- Outcome of one `doSingleAttempt`: a resolved response or a rejected
error with its `code`. -/
inductive AttemptOutcome where
  | resp (r : ClientResp)
  | err (code : String)

/-- `parseRetryAfterMs`: seconds convert to `max 0 (secs * 1000)`, an
HTTP-date to `max 0 (dateMs - Date.now())`. -/
def parseRetryAfterMs (h : RetryAfterHdr) (nowMs : Int) : Option Int :=
  match h with
  | .absent => none
  | .seconds s => some (max 0 (s * 1000))
  | .httpDate d => some (max 0 (d - nowMs))

/-- `isRetryableStatus`: 408, 429 or any 5xx. -/
def isRetryableStatus (statusCode : Int) : Bool :=
  statusCode == 408 || statusCode == 429 || (500 ≤ statusCode && statusCode < 600)

/-- `isTransientNetworkError` matched on the error `code`. -/
def isTransientNetworkError (code : String) : Bool :=
  ["ETIMEDOUT", "ECONNRESET", "EAI_AGAIN", "ECONNREFUSED", "ENOTFOUND"].contains code

/-- `computeBackoffWithJitterMs` with the source's default base 250 ms and
cap 4000 ms.  `Math.random()` is modelled as the rational `randNum/randDen`
(callers assume `randNum < randDen`, i.e. a draw in `[0,1)`), so the jitter
`Math.floor(random * Math.min(500, expo))` becomes an integer division. -/
def computeBackoffWithJitterMs (attemptIndex : Nat) (randNum randDen : Nat) : Int :=
  let expo : Int := min 4000 (250 * 2 ^ (attemptIndex - 1))
  let jitter : Int := ((randNum * (min 500 expo).toNat) / randDen : Nat)
  expo + jitter

/-- The delay selection of `runWithRetries` for a retryable status: honor
`Retry-After` exactly when present, otherwise exponential backoff with
jitter. -/
def retryDelayMs (h : RetryAfterHdr) (nowMs : Int)
    (attemptNumber randNum randDen : Nat) : Int :=
  match parseRetryAfterMs h nowMs with
  | some retryAfterMs => retryAfterMs
  | none => computeBackoffWithJitterMs attemptNumber randNum randDen

/-- The retry loop of `httpJson` from attempt `attemptNumber` on, with
`maxRetries` extra attempts beyond the first: a retryable status retries
while `attemptNumber ≤ maxRetries` and is otherwise returned; a rejected
attempt retries while the error is transient and `attemptNumber ≤
maxRetries`, and is otherwise re-raised. -/
def runWithRetries (attempts : Nat → AttemptOutcome) (maxRetries : Nat)
    (attemptNumber : Nat) : Except String ClientResp :=
  match attempts attemptNumber with
  | .resp r =>
      if h : isRetryableStatus r.statusCode = true ∧ attemptNumber ≤ maxRetries then
        runWithRetries attempts maxRetries (attemptNumber + 1)
      else
        .ok r
  | .err e =>
      if h : attemptNumber ≤ maxRetries ∧ isTransientNetworkError e = true then
        runWithRetries attempts maxRetries (attemptNumber + 1)
      else
        .error e
termination_by maxRetries + 1 - attemptNumber
decreasing_by
  · omega
  · omega

/-- `httpJson` seen through its retry behaviour: the loop starts at
attempt 1. -/
def httpJson (attempts : Nat → AttemptOutcome) (maxRetries : Nat) :
    Except String ClientResp :=
  runWithRetries attempts maxRetries 1

/-! ### Batch sender (`src/utils/flowchDirectSender.js`)

`httpJson` as seen from the batch sender is an oracle: the `k`-th HTTP call
of a run, posting a given window payload, either resolves with a status and
a (already `tryParseJson`-classified) body, or rejects with an error
message.  The endpoint is an untrusted black box, so the oracle is entirely
unconstrained. -/

/-- Outcome of one underlying `httpJson` call. -/
inductive HttpOutcome (α : Type) where
  | ok (statusCode : Int) (body : Body)
  | err (message : String)

/-- `enviarLote`: posts one window and converts a rejected call into the
synthetic result `{statusCode: 599, body: '{"error": <message>}'}`; the
stringified error object starts with an opener and parses back, so its
delivered body is the parsed object. -/
def enviarLote {α : Type} (outcome : HttpOutcome α) : Int × Body :=
  match outcome with
  | .ok statusCode body => (statusCode, body)
  | .err message => (599, .parsed (.obj [("error", .str message)]))

/-- One per-window result of `sendBatchesDirectToFlowch` (`durationMs` is
wall-clock telemetry and is not modelled). -/
structure DeliveryResult where
  batchIndex : Nat
  size : Nat
  statusCode : Int
  body : Body

/-- The aggregate returned by `sendBatchesDirectToFlowch` (`endpointUrl`
is configuration echo and is not modelled). -/
structure Aggregated where
  batchSize : Int
  totalBatches : Nat
  totalRecords : Nat
  results : List DeliveryResult

/-- The chunking loop of `dividirEmLotes` for chunk size `k + 1` (the
`+ 1` encodes the loop's guarantee `limite ≥ 1`). -/
def dividirAux {α : Type} (k : Nat) : List α → List (List α)
  | [] => []
  | c :: cs => (c :: cs).take (k + 1) :: dividirAux k (cs.drop k)
termination_by l => l.length
decreasing_by
  simp only [List.length_cons, List.length_drop]
  omega

/-- `dividirEmLotes`: splits an array into consecutive windows of
`limite = max 1 tamanho` elements. -/
def dividirEmLotes {α : Type} (arr : List α) (tamanho : Int) : List (List α) :=
  dividirAux ((max 1 tamanho).toNat - 1) arr

/-- The sequential posting loop over the windows: window `i` is posted as
HTTP call number `nc + i` and produces one `DeliveryResult`. -/
def sendBatchesAux {α : Type} (call : Nat → List α → HttpOutcome α) :
    List (List α) → Nat → Nat → List DeliveryResult
  | [], _, _ => []
  | w :: ws, i, nc =>
      let resp := enviarLote (call nc w)
      { batchIndex := i + 1, size := w.length, statusCode := resp.1, body := resp.2 } ::
        sendBatchesAux call ws (i + 1) (nc + 1)

/-- `sendBatchesDirectToFlowch`: fast path posting the whole array in one
call when it fits in `batchSize`, otherwise one call per
`dividirEmLotes` window.  Returns the aggregate together with the next
fresh HTTP call index. -/
def sendBatchesDirectToFlowch {α : Type} (call : Nat → List α → HttpOutcome α)
    (records : List α) (batchSize : Int) (nc : Nat) : Aggregated × Nat :=
  if (records.length : Int) ≤ batchSize then
    let resp := enviarLote (call nc records)
    ({ batchSize := batchSize, totalBatches := 1, totalRecords := records.length,
       results := [{ batchIndex := 1, size := records.length,
                     statusCode := resp.1, body := resp.2 }] }, nc + 1)
  else
    let lotes := dividirEmLotes records batchSize
    ({ batchSize := batchSize, totalBatches := lotes.length,
       totalRecords := records.length,
       results := sendBatchesAux call lotes 0 nc }, nc + lotes.length)

/-! ### Duplicate-aware adaptive sender (`src/services/envioDiretoService.js`) -/

/-- The environment of one invocation: `elapsed k` is `Date.now() -
iniciouEm` at the `k`-th budget computation of the run, and `call k w` is
the outcome of HTTP call number `k` posting window `w`. -/
structure Env (α : Type) where
  elapsed : Nat → Int
  call : Nat → List α → HttpOutcome α

/-- The oracle cursor: how many budget computations (`nb`) and HTTP calls
(`nc`) have happened so far. -/
structure St where
  nb : Nat
  nc : Nat

/-- `calcEffectiveTimeout` with the default environment knobs
(`SAFE_REMAINING_MS` unset so `margemSegurancaMs` is used as passed,
`REQ_OVERHEAD_MS` unset so `overheadMs = 200`): returns
`(effectiveTimeoutMs, budget)`. -/
def calcEffectiveTimeout (apigwSoftTimeoutMs margemSegurancaMs timeoutMs
    elapsedMs : Int) : Int × Int :=
  let gwLimitMs := apigwSoftTimeoutMs
  let msSafe := margemSegurancaMs
  let budget := gwLimitMs - msSafe - elapsedMs
  let timeoutBase := timeoutMs
  let overheadMs : Int := 200
  let budgetRequisicao := max 1000 (budget - overheadMs)
  let effectiveTimeoutMs := max 800 (min timeoutBase budgetRequisicao)
  (effectiveTimeoutMs, budget)

/-- Result record of `sendDuplicateAware`. -/
structure SendResult where
  accepted : Int
  inserted : Int
  updated : Int
  deleted : Int
  skippedDuplicates : Int
  errosBatchesCountDelta : Int
  batchesUsed : Nat
  budgetLeft : Option Int
  usedAdaptiveSplit : Bool
  fatalError : Option (Int × String)

/-- `String(x || '')` on an optionally-present JSON value, as used for the
`code`/`sqlMessage`/`sqlState` fields of the first structured error. -/
def strOfOrEmpty (v : Option Json) : String :=
  match v with
  | some j => if jsTruthy j then jsToString j else ""
  | none => ""

/-- `safeParseIfJson(firstBodyStr)` where `firstBodyStr` is the first
result's body when it is a string and `JSON.stringify(body || {})`
otherwise: a raw body already failed parsing, stringified scalars do not
start with an object/array opener, and stringified objects/arrays re-parse
to themselves. -/
def reparseFirstBody : Body → Json
  | .raw _ => .obj []
  | .parsed (.obj fields) => .obj fields
  | .parsed (.arr items) => .arr items
  | .parsed _ => .obj []

/-- `firstBodyStr`: the first result's body itself when raw, and
`JSON.stringify(body || {})` when parsed. -/
def firstBodyString : Body → String
  | .raw s => s
  | .parsed j => jsStringify (if jsTruthy j then j else .obj [])

/-- `sendDuplicateAware`: duplicate-aware divide-and-conquer resolution of
one slice.  Decision order, as in the source: empty slice; exhausted
budget (no call); dispatch through `sendBatchesDirectToFlowch`; no
results; invalid-URL early exit (599 + `invalid url` in the body);
fatal schema error with no progress; confirmed changes (accept, clean);
whole batch duplicate (skip all); single record (skip one); otherwise
bisect at `floor(sent / 2)`, resolving the left half before the right and
merging the counters. -/
def sendDuplicateAware {α : Type} (env : Env α)
    (apigwSoftTimeoutMs margemSegurancaMs timeoutMs batchSizeEfetivo : Int)
    (records : List α) (st : St) : SendResult × St :=
  if _h0 : records.length = 0 then
    ({ accepted := 0, inserted := 0, updated := 0, deleted := 0,
       skippedDuplicates := 0, errosBatchesCountDelta := 0, batchesUsed := 0,
       budgetLeft := none, usedAdaptiveSplit := false, fatalError := none }, st)
  else
    let sent := records.length
    let ct := calcEffectiveTimeout apigwSoftTimeoutMs margemSegurancaMs
      timeoutMs (env.elapsed st.nb)
    let budget := ct.2
    let st1 : St := ⟨st.nb + 1, st.nc⟩
    if budget ≤ 0 then
      ({ accepted := 0, inserted := 0, updated := 0, deleted := 0,
         skippedDuplicates := 0, errosBatchesCountDelta := 0, batchesUsed := 0,
         budgetLeft := some budget, usedAdaptiveSplit := true,
         fatalError := none }, st1)
    else
      let sb := sendBatchesDirectToFlowch env.call records
        (max 1 (min batchSizeEfetivo (sent : Int))) st1.nc
      let st2 : St := ⟨st1.nb, sb.2⟩
      match sb.1.results with
      | [] =>
          ({ accepted := 0, inserted := 0, updated := 0, deleted := 0,
             skippedDuplicates := 0, errosBatchesCountDelta := 0,
             batchesUsed := 1, budgetLeft := some budget,
             usedAdaptiveSplit := true, fatalError := none }, st2)
      | r0 :: rest =>
          let inserted := ((r0 :: rest).map
            (fun r => (extractCounts r.body).inserted)).sum
          let updated := ((r0 :: rest).map
            (fun r => (extractCounts r.body).updated)).sum
          let deleted := ((r0 :: rest).map
            (fun r => (extractCounts r.body).deleted)).sum
          let errosDelta : Int :=
            (((r0 :: rest).filter (fun r => isCountedAsError r.statusCode)).length : Int)
          let anyOk := (r0 :: rest).any (fun r => isOk r.statusCode)
          let firstStatus := getStatus r0.statusCode
          let mergedCounts := extractCounts
            (if bodyTruthy r0.body then r0.body else .parsed (.obj []))
          let firstBodyStr := firstBodyString r0.body
          if firstStatus = 599 ∧ strIncludes (jsStrLower firstBodyStr) "invalid url" = true then
            ({ accepted := 0, inserted := 0, updated := 0, deleted := 0,
               skippedDuplicates := 0, errosBatchesCountDelta := errosDelta + 1,
               batchesUsed := 1, budgetLeft := none, usedAdaptiveSplit := false,
               fatalError := some (400, jsStringify (.obj
                 [("error", .str "x-endpoint-url invalido ou inacessivel"),
                  ("detalhe", .str firstBodyStr)])) }, st2)
          else
            let parsed := reparseFirstBody r0.body
            let e0 : Json :=
              match ((jsGet parsed "errors").bind (fun es => jsIndex es 0)).bind
                  (fun e => jsGet e "erro") with
              | some j => if jsTruthy j then j else .obj []
              | none => .obj []
            let sqlCode := jsStrUpper (strOfOrEmpty (jsGet e0 "code"))
            let sqlMsg := jsStrLower (strOfOrEmpty (jsGet e0 "sqlMessage"))
            let sqlState := strOfOrEmpty (jsGet e0 "sqlState")
            let isSchemaError := sqlCode = "ER_BAD_FIELD_ERROR" ∨ sqlState = "42S22" ∨
              strIncludes sqlMsg "unknown column" = true
            let totalChanges := mergedCounts.inserted + mergedCounts.updated +
              mergedCounts.deleted
            let houveProgresso := totalChanges > 0 ∨ mergedCounts.alreadyExists > 0
            if (¬ houveProgresso) ∧ isSchemaError then
              ({ accepted := 0, inserted := 0, updated := 0, deleted := 0,
                 skippedDuplicates := 0, errosBatchesCountDelta := errosDelta,
                 batchesUsed := 1, budgetLeft := none, usedAdaptiveSplit := false,
                 fatalError := some (400, firstBodyStr) }, st2)
            else if anyOk = true ∧ inserted + updated + deleted > 0 then
              ({ accepted := inserted + updated + deleted, inserted := inserted,
                 updated := updated, deleted := deleted, skippedDuplicates := 0,
                 errosBatchesCountDelta := errosDelta, batchesUsed := 1,
                 budgetLeft := some budget, usedAdaptiveSplit := false,
                 fatalError := none }, st2)
            else if isWholeBatchDuplicate sent mergedCounts firstStatus = true then
              ({ accepted := 0, inserted := 0, updated := 0, deleted := 0,
                 skippedDuplicates := (sent : Int), errosBatchesCountDelta := errosDelta,
                 batchesUsed := 1, budgetLeft := some budget,
                 usedAdaptiveSplit := true, fatalError := none }, st2)
            else if h1 : records.length = 1 then
              ({ accepted := 0, inserted := 0, updated := 0, deleted := 0,
                 skippedDuplicates := 1, errosBatchesCountDelta := errosDelta,
                 batchesUsed := 1, budgetLeft := some budget,
                 usedAdaptiveSplit := true, fatalError := none }, st2)
            else
              let mid := sent / 2
              let leftRun := sendDuplicateAware env apigwSoftTimeoutMs
                margemSegurancaMs timeoutMs batchSizeEfetivo (records.take mid) st2
              let rightRun := sendDuplicateAware env apigwSoftTimeoutMs
                margemSegurancaMs timeoutMs batchSizeEfetivo (records.drop mid) leftRun.2
              ({ accepted := leftRun.1.accepted + rightRun.1.accepted,
                 inserted := leftRun.1.inserted + rightRun.1.inserted,
                 updated := leftRun.1.updated + rightRun.1.updated,
                 deleted := rightRun.1.deleted + leftRun.1.deleted,
                 skippedDuplicates := leftRun.1.skippedDuplicates +
                   rightRun.1.skippedDuplicates,
                 errosBatchesCountDelta := errosDelta +
                   leftRun.1.errosBatchesCountDelta + rightRun.1.errosBatchesCountDelta,
                 batchesUsed := 1 + leftRun.1.batchesUsed + rightRun.1.batchesUsed,
                 budgetLeft :=
                   match rightRun.1.budgetLeft with
                   | some b => some b
                   | none => leftRun.1.budgetLeft,
                 usedAdaptiveSplit := leftRun.1.usedAdaptiveSplit ||
                   rightRun.1.usedAdaptiveSplit || true,
                 fatalError := none }, rightRun.2)
termination_by records.length
decreasing_by
  · simp only [List.length_take]
    omega
  · simp only [List.length_drop]
    omega

/-! ### Resumable execution controller (`executarEnvioDireto`)

The controller is modelled in the default `SINGLE_BATCH_MODE='1'`
configuration, in which the per-slice loop returns within its first
iteration (both arms of the single-batch branch return).  Opaque
configuration echo (`endpointUrl`, `uploadId`, `fileHash`, `modo`,
`preview`) and the `duracaoMs` clock read are not modelled; the
environment default `BATCH_SIZE` is unset, so the internal nominal
default is 20, and `RETRY_AFTER_SECS` is its default 1. -/

/-- The semantic fields of `buildSummary`'s result. -/
structure Summary where
  linhasLidas : Int
  enviadasAprox : Int
  errosBatches : Int
  dryRun : Bool
  batchSize : Int
  suggestBatchSize : Int
  effectiveBatchSize : Int
  totalBatches : Int
  size : Int
  recordsInserted : Int
  recordsUpdated : Int
  recordsDeleted : Int
  skippedDuplicates : Int

/-- `buildSummary`: `confirmados` is the counter total, falling back to
the offset advance when the counters are all zero. -/
def buildSummary (totalLinhas tamanhoLoteEfetivo : Int) (offsetInicial : Nat)
    (indiceAceito : Int) (totais : Int × Int × Int)
    (errosBatchesCount : Int) (totalBatches : Nat) (skippedDuplicates : Int)
    (batchNominal batchSugerido : Int) : Summary :=
  let confirmados := jsOr (totais.1 + totais.2.1 + totais.2.2)
    (max 0 (indiceAceito - (offsetInicial : Int)))
  { linhasLidas := totalLinhas, enviadasAprox := confirmados,
    errosBatches := errosBatchesCount, dryRun := false,
    batchSize := batchNominal, suggestBatchSize := batchSugerido,
    effectiveBatchSize := tamanhoLoteEfetivo,
    totalBatches := (totalBatches : Int), size := confirmados,
    recordsInserted := totais.1, recordsUpdated := totais.2.1,
    recordsDeleted := totais.2.2, skippedDuplicates := skippedDuplicates }

/-- The JSON body of a controller response. -/
inductive RespPayload where
  | checkpoint (nextOffset : Int) (suggestBatchSize : Int) (summary : Summary)
  | finished (summary : Summary)
  | dryRunResp (nextOffset : Int) (suggestBatchSize : Int) (summary : Summary)
  | upstream (body : String)

/-- One controller response: status, headers (in emission order) and the
structured body. -/
structure ControllerOut where
  statusCode : Int
  headers : List (String × String)
  payload : RespPayload

/-- `executarEnvioDireto` in `SINGLE_BATCH_MODE`: batch-size policy,
dry-run short-circuit, one `sendDuplicateAware` slice, fatal passthrough,
checkpoint (206) when records remain and completion (200) otherwise.
Returns the response together with the final oracle cursor. -/
def executarEnvioDireto {α : Type} (env : Env α) (registros : List α)
    (offsetInicial : Nat) (batchSize batchSizeSugerido timeoutMs
    apigwSoftTimeoutMs margemSegurancaMs totalLinhas : Int)
    (dryRun : Bool) (st : St) : ControllerOut × St :=
  let defaultNominal : Int := 20
  let batchNominal := if batchSize > 0 then batchSize else defaultNominal
  let batchSugerido := if batchSizeSugerido > 0 then batchSizeSugerido else 0
  let batchEfetivo := if batchSugerido > 0 then batchSugerido else batchNominal
  if dryRun then
    let summary : Summary :=
      { linhasLidas := totalLinhas, enviadasAprox := 0, errosBatches := 0,
        dryRun := true, batchSize := batchNominal,
        suggestBatchSize := batchSugerido, effectiveBatchSize := batchEfetivo,
        totalBatches := 0, size := 0, recordsInserted := 0, recordsUpdated := 0,
        recordsDeleted := 0, skippedDuplicates := 0 }
    ({ statusCode := 200, headers := [("Content-Type", "application/json")],
       payload := .dryRunResp (offsetInicial : Int) batchSugerido summary }, st)
  else
    let todos := registros
    let indice := min offsetInicial todos.length
    let finalSummary := buildSummary totalLinhas batchEfetivo offsetInicial
      (offsetInicial : Int) (0, 0, 0) 0 0 0 batchNominal batchSugerido
    let respostaFinal : ControllerOut :=
      { statusCode := 200,
        headers := [("Content-Type", "application/json"),
                    ("x-batch-size", toString batchNominal),
                    ("x-suggest-batch-size", "0")],
        payload := .finished finalSummary }
    if indice < todos.length then
      -- batchEfetivo ≥ 1 always, so `toNat` is the identity embedding here
      let fim := min (indice + batchEfetivo.toNat) todos.length
      let fatia := (todos.drop indice).take (fim - indice)
      if fatia.length = 0 then
        (respostaFinal, st)
      else
        let run := sendDuplicateAware env apigwSoftTimeoutMs margemSegurancaMs
          timeoutMs batchEfetivo fatia st
        let res := run.1
        let progressoFatia := res.accepted + res.skippedDuplicates
        if res.fatalError ≠ none ∧ progressoFatia = 0 then
          let fe := res.fatalError.getD (0, "")
          ({ statusCode := if fe.1 ≠ 0 then fe.1 else 400,
             headers := [("Content-Type", "application/json"),
                         ("Retry-After", "1"),
                         ("x-batch-size", toString batchNominal),
                         ("x-suggest-batch-size", toString batchEfetivo)],
             payload := .upstream (if fe.2 ≠ "" then fe.2
               else jsStringify (.obj [("error", .str "Upstream error")])) }, run.2)
        else
          let totais := (res.inserted, res.updated, res.deleted)
          let indiceAceito : Int := (offsetInicial : Int) + progressoFatia
          let nextOffsetOut : Int :=
            if progressoFatia > 0 then indiceAceito else (offsetInicial : Int)
          let temMais := fim < todos.length
          let summary := buildSummary totalLinhas batchEfetivo offsetInicial
            indiceAceito totais res.errosBatchesCountDelta
            (max 1 res.batchesUsed) res.skippedDuplicates batchNominal batchSugerido
          let nextSuggest : Int :=
            if progressoFatia = 0 then max 1 (batchEfetivo / 2)
            else if res.usedAdaptiveSplit = true then
              (if batchSugerido > 0 then batchSugerido else batchEfetivo)
            else 0
          let baseHeaders := [("Content-Type", "application/json"),
                              ("x-batch-size", toString batchNominal),
                              ("x-suggest-batch-size", toString nextSuggest)]
          if temMais then
            ({ statusCode := 206, headers := baseHeaders ++ [("Retry-After", "1")],
               payload := .checkpoint nextOffsetOut nextSuggest summary }, run.2)
          else
            ({ statusCode := 200, headers := baseHeaders,
               payload := .finished summary }, run.2)
    else
      (respostaFinal, st)

/-! ### Derived definitions used by the verification -/

/-- An attempt outcome that triggers a retry in `runWithRetries`: a
response with a retryable status, or a transient network error. -/
def retryTriggering : AttemptOutcome → Prop
  | .resp r => isRetryableStatus r.statusCode = true
  | .err e => isTransientNetworkError e = true

/-- The total of the three mutation counters extracted from one body. -/
def extractedTotal (b : Body) : Int :=
  (extractCounts b).inserted + (extractCounts b).updated + (extractCounts b).deleted

/-- The windows posted by `sendBatchesDirectToFlowch`: the whole array on
the fast path, the `dividirEmLotes` chunks otherwise. -/
def postedWindows {α : Type} (records : List α) (batchSize : Int) : List (List α) :=
  if (records.length : Int) ≤ batchSize then [records]
  else dividirEmLotes records batchSize

/-! ### Concrete environments used as witnesses and counterexamples -/

/-- Attempt oracle: attempts 1 and 2 deliver a retryable 500, attempt 3
delivers a retryable 503. -/
def attemptsW : Nat → AttemptOutcome := fun k =>
  if k = 3 then .resp ⟨503, .absent⟩ else .resp ⟨500, .absent⟩

/-- An endpoint that always answers 200 with `recordsInserted: 50`,
over-reporting any slice smaller than 50 records. -/
def envOverReport : Env Unit :=
  { elapsed := fun _ => 0,
    call := fun _ _ => .ok 200 (.parsed (.obj [("recordsInserted", .num 50)])) }

/-- An invocation whose budget is already exhausted before the first
slice (elapsed 30000 ms against a 29000 ms gateway limit). -/
def envBudget0 : Env Unit :=
  { elapsed := fun _ => 30000,
    call := fun _ _ => .ok 200 (.parsed (.obj [])) }

/-- An endpoint that always answers 400 with a fatal schema error
(`ER_BAD_FIELD_ERROR`) and no progress. -/
def envSchema : Env Unit :=
  { elapsed := fun _ => 0,
    call := fun _ _ => .ok 400 (.parsed (.obj [("errors", .arr
      [.obj [("erro", .obj [("code", .str "ER_BAD_FIELD_ERROR")])]])])) }

/-- A 599 response whose body both mentions `invalid url` and reports one
`ALREADY_EXISTS` duplicate. -/
def bodyC4 : Json :=
  .obj [("msg", .str "invalid url"),
        ("errors", .arr [.obj [("erro", .obj [("posapp_fields_error_message",
          .arr [.obj [("f", .str "ALREADY_EXISTS")]])])]])]

/-- The environment delivering `bodyC4` with status 599. -/
def envC4 : Env Unit :=
  { elapsed := fun _ => 0,
    call := fun _ _ => .ok 599 (.parsed bodyC4) }

/-- An endpoint that always answers 200 with an empty object: no
mutations, no duplicate signals. -/
def envNeutral : Env Unit :=
  { elapsed := fun _ => 0,
    call := fun _ _ => .ok 200 (.parsed (.obj [])) }

/-- Records are flagged `true` when the endpoint rejects them: a window
containing a flagged record fails with an uninformative 400, a clean
window is accepted with `recordsInserted` equal to its size. -/
def envOffender : Env Bool :=
  { elapsed := fun _ => 0,
    call := fun _ w =>
      if w.contains true then .ok 400 (.parsed (.obj []))
      else .ok 200 (.parsed (.obj [("recordsInserted", .num (w.length : Int))])) }

/-- A transport that rejects every call with a network error. -/
def callNetErr : Nat → List Unit → HttpOutcome Unit := fun _ _ => .err "socket hang up"

/-- An endpoint answering 400 with one `ALREADY_EXISTS` duplicate signal
per record of a two-record window. -/
def envDup : Env Unit :=
  { elapsed := fun _ => 0,
    call := fun _ _ => .ok 400 (.parsed (.obj [("errors", .arr [
      .obj [("erro", .obj [("posapp_fields_error_message",
        .arr [.obj [("f", .str "ALREADY_EXISTS")]])])],
      .obj [("erro", .obj [("posapp_fields_error_message",
        .arr [.obj [("f", .str "ALREADY_EXISTS")]])])]])])) }

/-- The first dispatch of a slice left it unresolved: none of the early
exits of `sendDuplicateAware` (invalid URL, fatal schema error, happy
path, whole-batch duplicate) applies to the window results. -/
def unresolvedDecision (sent : Nat) (results : List DeliveryResult) : Prop :=
  match results with
  | [] => False
  | r0 :: rest =>
      ¬ (getStatus r0.statusCode = 599 ∧
          strIncludes (jsStrLower (firstBodyString r0.body)) "invalid url" = true) ∧
      ¬ ((¬ ((extractCounts (if bodyTruthy r0.body = true then r0.body
            else Body.parsed (Json.obj []))).inserted +
          (extractCounts (if bodyTruthy r0.body = true then r0.body
            else Body.parsed (Json.obj []))).updated +
          (extractCounts (if bodyTruthy r0.body = true then r0.body
            else Body.parsed (Json.obj []))).deleted > 0 ∨
          (extractCounts (if bodyTruthy r0.body = true then r0.body
            else Body.parsed (Json.obj []))).alreadyExists > 0)) ∧
          (jsStrUpper (strOfOrEmpty (jsGet
            (match ((jsGet (reparseFirstBody r0.body) "errors").bind
                (fun es => jsIndex es 0)).bind (fun e => jsGet e "erro") with
             | some j => if jsTruthy j = true then j else Json.obj []
             | none => Json.obj []) "code")) = "ER_BAD_FIELD_ERROR" ∨
           strOfOrEmpty (jsGet
            (match ((jsGet (reparseFirstBody r0.body) "errors").bind
                (fun es => jsIndex es 0)).bind (fun e => jsGet e "erro") with
             | some j => if jsTruthy j = true then j else Json.obj []
             | none => Json.obj []) "sqlState") = "42S22" ∨
           strIncludes (jsStrLower (strOfOrEmpty (jsGet
            (match ((jsGet (reparseFirstBody r0.body) "errors").bind
                (fun es => jsIndex es 0)).bind (fun e => jsGet e "erro") with
             | some j => if jsTruthy j = true then j else Json.obj []
             | none => Json.obj []) "sqlMessage"))) "unknown column" = true)) ∧
      ¬ (((r0 :: rest).any fun r => isOk r.statusCode) = true ∧
        (List.map (fun r => (extractCounts r.body).inserted) (r0 :: rest)).sum +
        (List.map (fun r => (extractCounts r.body).updated) (r0 :: rest)).sum +
        (List.map (fun r => (extractCounts r.body).deleted) (r0 :: rest)).sum > 0) ∧
      ¬ (isWholeBatchDuplicate sent
          (extractCounts (if bodyTruthy r0.body = true then r0.body
            else Body.parsed (Json.obj []))) (getStatus r0.statusCode) = true)

/-- The numeric nextOffset carried by a controller payload, if any. -/
def payloadNextOffset : RespPayload → Option Int
  | .checkpoint n _ _ => some n
  | .finished _ => none
  | .dryRunResp n _ _ => some n
  | .upstream _ => none

/-- The `sendDuplicateAware` invocation performed by the controller on the
current slice (same batch-size policy and slice computation as
`executarEnvioDireto` in the non-dry-run path). -/
def controllerRun {α : Type} (env : Env α) (registros : List α) (offsetInicial : Nat)
    (batchSize batchSizeSugerido timeoutMs apigwSoftTimeoutMs margemSegurancaMs : Int)
    (st : St) : SendResult × St :=
  let batchNominal := if batchSize > 0 then batchSize else 20
  let batchSugerido := if batchSizeSugerido > 0 then batchSizeSugerido else 0
  let batchEfetivo := if batchSugerido > 0 then batchSugerido else batchNominal
  let indice := min offsetInicial registros.length
  let fim := min (indice + batchEfetivo.toNat) registros.length
  let fatia := (registros.drop indice).take (fim - indice)
  sendDuplicateAware env apigwSoftTimeoutMs margemSegurancaMs timeoutMs batchEfetivo fatia st

/-! ### Theorems -/
theorem runWithRetries_exhaust (attempts : Nat → AttemptOutcome) (maxRetries j : Nat)
    (hj2 : j ≤ maxRetries + 1)
    (H : ∀ k, j ≤ k → k ≤ maxRetries → retryTriggering (attempts k)) :
    runWithRetries attempts maxRetries j =
      (match attempts (maxRetries + 1) with
       | .resp r => Except.ok r
       | .err e => Except.error e) := by
  by_cases hj : j = maxRetries + 1
  · subst hj
    rw [runWithRetries]
    cases h : attempts (maxRetries + 1) with
    | resp r =>
        have hno : ¬ (isRetryableStatus r.statusCode = true ∧ maxRetries + 1 ≤ maxRetries) := by
          rintro ⟨-, h2⟩
          omega
        simp only [hno, dite_false]
    | err e =>
        have hno : ¬ (maxRetries + 1 ≤ maxRetries ∧ isTransientNetworkError e = true) := by
          rintro ⟨h2, -⟩
          omega
        simp only [hno, dite_false]
  · have hlt : j ≤ maxRetries := by omega
    have hT := H j le_rfl hlt
    rw [runWithRetries]
    cases h : attempts j with
    | resp r =>
        rw [h] at hT
        simp only [retryTriggering] at hT
        show (if _h : isRetryableStatus r.statusCode = true ∧ j ≤ maxRetries then
                runWithRetries attempts maxRetries (j + 1)
              else Except.ok r) = _
        rw [dif_pos (And.intro hT hlt)]
        exact runWithRetries_exhaust attempts maxRetries (j + 1) (by omega)
          (fun k hk1 hk2 => H k (by omega) hk2)
    | err e =>
        rw [h] at hT
        simp only [retryTriggering] at hT
        show (if _h : j ≤ maxRetries ∧ isTransientNetworkError e = true then
                runWithRetries attempts maxRetries (j + 1)
              else Except.error e) = _
        rw [dif_pos (And.intro hlt hT)]
        exact runWithRetries_exhaust attempts maxRetries (j + 1) (by omega)
          (fun k hk1 hk2 => H k (by omega) hk2)
termination_by maxRetries + 1 - j

/-- C6: when every attempt up to `maxRetries` triggers a retry (retryable
status or transient error), exhausting the retries on a response with a
retryable status still returns that response, while exhausting them on a
network error re-raises the last error. -/
theorem c6_exhausted_retries (attempts : Nat → AttemptOutcome) (maxRetries : Nat)
    (H : ∀ k, 1 ≤ k → k ≤ maxRetries → retryTriggering (attempts k)) :
    (∀ r, attempts (maxRetries + 1) = .resp r → httpJson attempts maxRetries = .ok r) ∧
    (∀ e, attempts (maxRetries + 1) = .err e → httpJson attempts maxRetries = .error e) := by
  have h := runWithRetries_exhaust attempts maxRetries 1 (by omega) (fun k hk1 hk2 => H k hk1 hk2)
  constructor
  · intro r hr
    rw [httpJson, h, hr]
  · intro e he
    rw [httpJson, h, he]

/-- C6 witness: two retryable 500s followed by a final retryable 503 make
`httpJson` return the 503 response. -/
theorem c6_exhausted_retries_witness :
    httpJson attemptsW 2 = .ok ⟨503, .absent⟩ := by
  refine (c6_exhausted_retries attemptsW 2 ?_).1 ⟨503, .absent⟩ (by simp [attemptsW])
  intro k hk1 hk2
  interval_cases k <;> simp [attemptsW, retryTriggering, isRetryableStatus]

/-- C7: a present `Retry-After` header (seconds or HTTP-date) is honored
exactly, independent of the jitter draw — in particular `Retry-After: 2`
waits exactly 2000 ms — while an absent header falls back to exponential
backoff `min 4000 (250 * 2 ^ (attempt - 1))` plus a bounded jitter that is
only ever added (the delay is at least the backoff and less than the
backoff plus 500 ms). -/
theorem c7_retry_delay (nowMs : Int) (attemptNumber randNum randDen : Nat)
    (_ha : 1 ≤ attemptNumber) (hrand : randNum < randDen) :
    (∀ s : Int, retryDelayMs (.seconds s) nowMs attemptNumber randNum randDen = max 0 (s * 1000)) ∧
    (retryDelayMs (.seconds 2) nowMs attemptNumber randNum randDen = 2000) ∧
    (∀ d : Int, retryDelayMs (.httpDate d) nowMs attemptNumber randNum randDen = max 0 (d - nowMs)) ∧
    (retryDelayMs .absent nowMs attemptNumber randNum randDen =
       computeBackoffWithJitterMs attemptNumber randNum randDen) ∧
    (min 4000 (250 * 2 ^ (attemptNumber - 1)) ≤
       retryDelayMs .absent nowMs attemptNumber randNum randDen) ∧
    (retryDelayMs .absent nowMs attemptNumber randNum randDen <
       min 4000 (250 * 2 ^ (attemptNumber - 1)) + 500) := by
  have hpow : (1 : Int) ≤ 2 ^ (attemptNumber - 1) := by
    have := pow_pos (by norm_num : (0 : Int) < 2) (attemptNumber - 1)
    omega
  have hexpo : (250 : Int) ≤ min 4000 (250 * 2 ^ (attemptNumber - 1)) := by
    refine le_min (by norm_num) ?_
    nlinarith
  have hden : 0 < randDen := by omega
  have hm250 : (250 : Int) ≤ min 500 (min 4000 (250 * 2 ^ (attemptNumber - 1))) :=
    le_min (by norm_num) hexpo
  have hmnat : 0 < (min 500 (min 4000 ((250 : Int) * 2 ^ (attemptNumber - 1)))).toNat := by
    omega
  have hjit : (randNum * (min 500 (min 4000 ((250 : Int) * 2 ^ (attemptNumber - 1)))).toNat) / randDen
      < (min 500 (min 4000 ((250 : Int) * 2 ^ (attemptNumber - 1)))).toNat := by
    rw [Nat.div_lt_iff_lt_mul hden]
    calc randNum * (min 500 (min 4000 ((250 : Int) * 2 ^ (attemptNumber - 1)))).toNat
        < randDen * (min 500 (min 4000 ((250 : Int) * 2 ^ (attemptNumber - 1)))).toNat :=
          Nat.mul_lt_mul_right hmnat |>.mpr hrand
      _ = (min 500 (min 4000 ((250 : Int) * 2 ^ (attemptNumber - 1)))).toNat * randDen := by
          ring
  have hmle : (min 500 (min 4000 ((250 : Int) * 2 ^ (attemptNumber - 1)))) ≤ 500 :=
    min_le_left _ _
  refine ⟨fun s => rfl, by simp [retryDelayMs, parseRetryAfterMs], fun d => rfl, rfl, ?_, ?_⟩
  · simp only [retryDelayMs, parseRetryAfterMs, computeBackoffWithJitterMs]
    exact le_add_of_nonneg_right (Int.ofNat_nonneg _)
  · simp only [retryDelayMs, parseRetryAfterMs, computeBackoffWithJitterMs]
    have h1 : ((randNum * (min 500 (min 4000 ((250 : Int) * 2 ^ (attemptNumber - 1)))).toNat
        / randDen : Nat) : Int)
        < ((min 500 (min 4000 ((250 : Int) * 2 ^ (attemptNumber - 1)))).toNat : Int) :=
      Int.ofNat_lt.mpr hjit
    have h2 : (((min 500 (min 4000 ((250 : Int) * 2 ^ (attemptNumber - 1)))).toNat : Int)) ≤ 500 := by
      omega
    linarith

/-- C7 witness at attempt 2 with jitter draw 3/10. -/
theorem c7_retry_delay_witness :
    (1 : Nat) ≤ 2 ∧ (3 : Nat) < 10 ∧
    retryDelayMs (.seconds 2) 0 2 3 10 = 2000 ∧
    retryDelayMs .absent 0 2 3 10 = computeBackoffWithJitterMs 2 3 10 := by
  refine ⟨by norm_num, by norm_num, ?_, ?_⟩
  · exact (c7_retry_delay 0 2 3 10 (by norm_num) (by norm_num)).2.1
  · exact (c7_retry_delay 0 2 3 10 (by norm_num) (by norm_num)).2.2.2.1

theorem sendDA_nonneg {α : Type} (env : Env α) (a m t bs : Int) :
    ∀ (n : Nat) (records : List α), records.length = n → ∀ st : St,
      0 ≤ (sendDuplicateAware env a m t bs records st).1.accepted ∧
      0 ≤ (sendDuplicateAware env a m t bs records st).1.skippedDuplicates ∧
      (sendDuplicateAware env a m t bs records st).1.skippedDuplicates ≤ (records.length : Int) := by
  intro n
  induction n using Nat.strong_induction_on with
  | _ n ih =>
    intro records hlen st
    rw [sendDuplicateAware]
    dsimp only
    repeat' split
    all_goals try simp
    all_goals try omega
    all_goals try (rename_i hpos; simp only [List.map_cons, List.sum_cons] at hpos; omega)
    all_goals
      (have hT := ih (records.take (records.length / 2)).length
        (by simp only [List.length_take]; omega)
        (records.take (records.length / 2)) rfl
       have hD := ih (records.drop (records.length / 2)).length
        (by simp only [List.length_drop]; omega)
        (records.drop (records.length / 2)) rfl
       refine ⟨add_nonneg ((hT _).1) ((hD _).1), add_nonneg ((hT _).2.1) ((hD _).2.1), ?_⟩
       refine le_trans (add_le_add ((hT _).2.2) ((hD _).2.2)) ?_
       simp only [List.length_take, List.length_drop]
       push_cast
       omega)

/-- The total of the three mutation counters extracted from one body. -/

theorem dividirAux_length_sum {α : Type} (k : Nat) :
    ∀ (n : Nat) (l : List α), l.length = n → ((dividirAux k l).map List.length).sum = l.length := by
  intro n
  induction n using Nat.strong_induction_on with
  | _ n ih =>
    intro l hlen
    cases l with
    | nil => simp [dividirAux]
    | cons c cs =>
        rw [dividirAux]
        simp only [List.map_cons, List.sum_cons]
        simp only [List.length_cons] at hlen
        rw [ih (cs.drop k).length (by simp only [List.length_drop]; omega) (cs.drop k) rfl]
        simp only [List.length_take, List.length_drop, List.length_cons]
        rcases le_total (k + 1) (cs.length + 1) with hk | hk
        · rw [min_eq_left hk]
          omega
        · rw [min_eq_right hk]
          omega

theorem sum_extractedTotal (l : List DeliveryResult) :
    (l.map (fun r => extractedTotal r.body)).sum =
    (l.map (fun r => (extractCounts r.body).inserted)).sum +
    (l.map (fun r => (extractCounts r.body).updated)).sum +
    (l.map (fun r => (extractCounts r.body).deleted)).sum := by
  induction l with
  | nil => simp
  | cons h tl ihl =>
      simp only [extractedTotal] at ihl
      simp only [List.map_cons, List.sum_cons, extractedTotal, ihl]
      omega

theorem sendBatchesAux_sum_le {α : Type} (call : Nat → List α → HttpOutcome α)
    (Hcall : ∀ k (w : List α), extractedTotal (enviarLote (call k w)).2 ≤ (w.length : Int)) :
    ∀ (ws : List (List α)) (i nc : Nat),
      ((sendBatchesAux call ws i nc).map (fun r => extractedTotal r.body)).sum ≤
        (((ws.map List.length).sum : Nat) : Int) := by
  intro ws
  induction ws with
  | nil => intro i nc; simp [sendBatchesAux]
  | cons w tl ihw =>
      intro i nc
      rw [sendBatchesAux]
      simp only [List.map_cons, List.sum_cons]
      have h1 := Hcall nc w
      have h2 := ihw (i + 1) (nc + 1)
      push_cast
      push_cast at h2
      linarith

theorem sendBatches_extracted_le {α : Type} (call : Nat → List α → HttpOutcome α)
    (Hcall : ∀ k (w : List α), extractedTotal (enviarLote (call k w)).2 ≤ (w.length : Int))
    (records : List α) (batchSize : Int) (nc : Nat) :
    (((sendBatchesDirectToFlowch call records batchSize nc).1.results).map
      (fun r => extractedTotal r.body)).sum ≤ (records.length : Int) := by
  rw [sendBatchesDirectToFlowch]
  split
  · simpa using Hcall nc records
  · have h := sendBatchesAux_sum_le call Hcall (dividirEmLotes records batchSize) 0 nc
    rw [dividirEmLotes] at h ⊢
    rw [dividirAux_length_sum ((max 1 batchSize).toNat - 1) records.length records rfl] at h
    exact h

theorem sendDA_le {α : Type} (env : Env α) (a m t bs : Int)
    (Hcall : ∀ k (w : List α), extractedTotal (enviarLote (env.call k w)).2 ≤ (w.length : Int)) :
    ∀ (n : Nat) (records : List α), records.length = n → ∀ st : St,
      (sendDuplicateAware env a m t bs records st).1.accepted +
      (sendDuplicateAware env a m t bs records st).1.skippedDuplicates ≤ (records.length : Int) := by
  intro n
  induction n using Nat.strong_induction_on with
  | _ n ih =>
    intro records hlen st
    rw [sendDuplicateAware]
    dsimp only
    split
    next => simp
    next h0 =>
      split
      next => simp
      next hbudget =>
        split
        next => simp
        next r0 rest heq =>
          have hb := sendBatches_extracted_le env.call Hcall records
            (max 1 (min bs (records.length : Int))) st.nc
          rw [heq, sum_extractedTotal] at hb
          simp only [List.map_cons, List.sum_cons] at hb
          repeat' split
          all_goals try simp
          all_goals try omega
          all_goals
            (have hT := ih (records.take (records.length / 2)).length
              (by simp only [List.length_take]; omega)
              (records.take (records.length / 2)) rfl
             have hD := ih (records.drop (records.length / 2)).length
              (by simp only [List.length_drop]; omega)
              (records.drop (records.length / 2)) rfl
             have h3 : ((records.take (records.length / 2)).length : Int) +
                 ((records.drop (records.length / 2)).length : Int) = (records.length : Int) := by
               simp only [List.length_take, List.length_drop]
               push_cast
               omega
             have hTL := hT ⟨st.nb + 1, (sendBatchesDirectToFlowch env.call records
               (max 1 (min bs (records.length : Int))) st.nc).2⟩
             have hDR := hD (sendDuplicateAware env a m t bs (records.take (records.length / 2))
               ⟨st.nb + 1, (sendBatchesDirectToFlowch env.call records
                 (max 1 (min bs (records.length : Int))) st.nc).2⟩).2
             linarith)

theorem sendBatchesAux_length {α : Type} (call : Nat → List α → HttpOutcome α) :
    ∀ (ws : List (List α)) (i0 nc : Nat), (sendBatchesAux call ws i0 nc).length = ws.length := by
  intro ws
  induction ws with
  | nil => intro i0 nc; rfl
  | cons w0 tl ihw => intro i0 nc; rw [sendBatchesAux]; simp [ihw]

theorem sendBatchesAux_get {α : Type} (call : Nat → List α → HttpOutcome α) :
    ∀ (ws : List (List α)) (i0 nc k : Nat) (w : List α), ws.get? k = some w →
      (sendBatchesAux call ws i0 nc).get? k =
        some { batchIndex := i0 + k + 1, size := w.length,
               statusCode := (enviarLote (call (nc + k) w)).1,
               body := (enviarLote (call (nc + k) w)).2 } := by
  intro ws
  induction ws with
  | nil => intro i0 nc k w h; simp at h
  | cons w0 tl ihw =>
      intro i0 nc k w h
      cases k with
      | zero =>
          simp only [List.get?_cons_zero, Option.some.injEq] at h
          subst h
          rw [sendBatchesAux]
          simp
      | succ k =>
          simp only [List.get?_cons_succ] at h
          rw [sendBatchesAux]
          simp only [List.get?_cons_succ]
          rw [ihw (i0 + 1) (nc + 1) k w h]
          have e1 : i0 + 1 + k + 1 = i0 + (k + 1) + 1 := by omega
          have e2 : nc + 1 + k = nc + (k + 1) := by omega
          rw [e1, e2]

/-- C10: `sendBatchesDirectToFlowch` yields exactly one result per posted
window, and a window whose underlying HTTP call throws is converted into
the synthetic result with `statusCode` 599 and body `{error: <message>}`;
the sender itself is a total function of the transport oracle, so a
transport failure never rejects the aggregate. -/
theorem c10_sender_window_results {α : Type} (call : Nat → List α → HttpOutcome α)
    (records : List α) (batchSize : Int) (nc : Nat) :
    (sendBatchesDirectToFlowch call records batchSize nc).1.results.length =
      (postedWindows records batchSize).length ∧
    (∀ i w msg, (postedWindows records batchSize).get? i = some w →
      call (nc + i) w = .err msg →
      (sendBatchesDirectToFlowch call records batchSize nc).1.results.get? i =
        some { batchIndex := i + 1, size := w.length, statusCode := 599,
               body := .parsed (.obj [("error", .str msg)]) }) := by
  rw [sendBatchesDirectToFlowch, postedWindows]
  split
  · refine ⟨by simp, ?_⟩
    intro i w msg hw hcall
    cases i with
    | zero =>
        simp only [List.get?_cons_zero, Option.some.injEq] at hw
        subst hw
        simp only [Nat.add_zero] at hcall
        simp [hcall, enviarLote]
    | succ i => simp at hw
  · refine ⟨by simp [sendBatchesAux_length], ?_⟩
    intro i w msg hw hcall
    have h := sendBatchesAux_get call (dividirEmLotes records batchSize) 0 nc i w hw
    rw [hcall] at h
    simpa [enviarLote] using h

/-- C10 witness: both windows of a two-record run with batch size 1 fail
with a network error and are delivered as synthetic 599 results. -/
theorem c10_sender_window_results_witness :
    (sendBatchesDirectToFlowch callNetErr [(), ()] 1 0).1.results.get? 1 =
      some { batchIndex := 2, size := 1, statusCode := 599,
             body := .parsed (.obj [("error", .str "socket hang up")]) } := by
  have h := (c10_sender_window_results callNetErr [(), ()] 1 0).2 1 [()] "socket hang up"
    (by simp [postedWindows, dividirEmLotes, dividirAux]) rfl
  simpa using h

/-- C1 counterexample: against an endpoint whose response over-reports
`recordsInserted: 50`, a dispatched slice of two records resolves with
`accepted + skippedDuplicates = 50 > 2`, violating the claimed bound. -/
theorem c1_counterexample :
    ¬ ((sendDuplicateAware envOverReport 29000 4000 25000 2 [(), ()] ⟨0, 0⟩).1.accepted +
       (sendDuplicateAware envOverReport 29000 4000 25000 2 [(), ()] ⟨0, 0⟩).1.skippedDuplicates ≤
       (([(), ()] : List Unit).length : Int)) := by
  have ha : (sendDuplicateAware envOverReport 29000 4000 25000 2 [(), ()] ⟨0, 0⟩).1.accepted = 50 := by
    simp +decide [sendDuplicateAware, envOverReport, sendBatchesDirectToFlowch, enviarLote,
      calcEffectiveTimeout, extractCounts, safeParseIfJson, jsTruthy, jsGet, num, jsOr,
      bodyTruthy, firstBodyString, isCountedAsError, getStatus, isOk, reparseFirstBody,
      strOfOrEmpty, jsStrUpper, jsStrLower, strIncludes, charsContains, charsStartsWith,
      jsStringify, jsonEscape, isWholeBatchDuplicate, alreadyExistsOfError, jsIndex,
      jsToString, strToNumOr0]
  have hs : (sendDuplicateAware envOverReport 29000 4000 25000 2 [(), ()] ⟨0, 0⟩).1.skippedDuplicates = 0 := by
    simp +decide [sendDuplicateAware, envOverReport, sendBatchesDirectToFlowch, enviarLote,
      calcEffectiveTimeout, extractCounts, safeParseIfJson, jsTruthy, jsGet, num, jsOr,
      bodyTruthy, firstBodyString, isCountedAsError, getStatus, isOk, reparseFirstBody,
      strOfOrEmpty, jsStrUpper, jsStrLower, strIncludes, charsContains, charsStartsWith,
      jsStringify, jsonEscape, isWholeBatchDuplicate, alreadyExistsOfError, jsIndex,
      jsToString, strToNumOr0]
  rw [ha, hs]
  norm_num

/-- C1 (amended): provided every HTTP response reports at most as many
extracted mutations as the records posted in that call, every slice
resolves with `accepted + skippedDuplicates ≤ |slice|`; the number of
skipped duplicates lies in `[0, |slice|]` under the same hypothesis. -/
theorem c1_progress_bound {α : Type} (env : Env α)
    (apigwSoftTimeoutMs margemSegurancaMs timeoutMs batchSizeEfetivo : Int)
    (records : List α) (st : St)
    (Hcall : ∀ k (w : List α), extractedTotal (enviarLote (env.call k w)).2 ≤ (w.length : Int)) :
    (sendDuplicateAware env apigwSoftTimeoutMs margemSegurancaMs timeoutMs batchSizeEfetivo
        records st).1.accepted +
      (sendDuplicateAware env apigwSoftTimeoutMs margemSegurancaMs timeoutMs batchSizeEfetivo
        records st).1.skippedDuplicates ≤ (records.length : Int) ∧
    0 ≤ (sendDuplicateAware env apigwSoftTimeoutMs margemSegurancaMs timeoutMs batchSizeEfetivo
        records st).1.skippedDuplicates ∧
    (sendDuplicateAware env apigwSoftTimeoutMs margemSegurancaMs timeoutMs batchSizeEfetivo
        records st).1.skippedDuplicates ≤ (records.length : Int) :=
  ⟨sendDA_le env apigwSoftTimeoutMs margemSegurancaMs timeoutMs batchSizeEfetivo Hcall
      records.length records rfl st,
   (sendDA_nonneg env apigwSoftTimeoutMs margemSegurancaMs timeoutMs batchSizeEfetivo
      records.length records rfl st).2.1,
   (sendDA_nonneg env apigwSoftTimeoutMs margemSegurancaMs timeoutMs batchSizeEfetivo
      records.length records rfl st).2.2⟩

/-- C1 witness: the bound instantiated against an endpoint that reports no
mutations at all. -/
theorem c1_progress_bound_witness :
    (sendDuplicateAware envNeutral 29000 4000 25000 2 [(), ()] ⟨0, 0⟩).1.accepted +
      (sendDuplicateAware envNeutral 29000 4000 25000 2 [(), ()] ⟨0, 0⟩).1.skippedDuplicates ≤
      (([(), ()] : List Unit).length : Int) := by
  refine (c1_progress_bound envNeutral 29000 4000 25000 2 [(), ()] ⟨0, 0⟩ ?_).1
  intro k w
  have h : extractedTotal (enviarLote (envNeutral.call k w)).2 = 0 := by
    simp [extractedTotal, envNeutral, enviarLote, extractCounts, safeParseIfJson, jsTruthy,
      jsGet, num, jsOr]
  rw [h]
  positivity

theorem sendBatches_results_ne_nil {α : Type} (call : Nat → List α → HttpOutcome α)
    (records : List α) (batchSize : Int) (nc : Nat) (h : records ≠ []) :
    (sendBatchesDirectToFlowch call records batchSize nc).1.results ≠ [] := by
  rw [sendBatchesDirectToFlowch]
  split
  · simp
  · cases records with
    | nil => exact absurd rfl h
    | cons c cs =>
        rw [dividirEmLotes, dividirAux]
        dsimp only
        rw [sendBatchesAux]
        simp

/-- C4 counterexample: a 599 response whose body mentions `invalid url`
while also reporting a full duplicate count satisfies the claim's premise
(zero extracted mutations, duplicate count ≥ records sent), yet the slice
is resolved through the invalid-URL early exit with `skippedDuplicates = 0`
instead of the whole-slice duplicate skip. -/
theorem c4_counterexample :
    (extractCounts (.parsed bodyC4)).inserted = 0 ∧
    (extractCounts (.parsed bodyC4)).updated = 0 ∧
    (extractCounts (.parsed bodyC4)).deleted = 0 ∧
    (([()] : List Unit).length : Int) ≤ (extractCounts (.parsed bodyC4)).alreadyExists ∧
    ¬ ((sendDuplicateAware envC4 29000 4000 25000 1 [()] ⟨0, 0⟩).1.skippedDuplicates =
        (([()] : List Unit).length : Int)) := by
  refine ⟨by simp +decide [extractCounts, bodyC4, safeParseIfJson, jsTruthy, jsGet, num, jsOr,
      alreadyExistsOfError, jsIndex, jsToString, strToNumOr0, jsStrUpper, bodyTruthy],
    by simp +decide [extractCounts, bodyC4, safeParseIfJson, jsTruthy, jsGet, num, jsOr,
      alreadyExistsOfError, jsIndex, jsToString, strToNumOr0, jsStrUpper, bodyTruthy],
    by simp +decide [extractCounts, bodyC4, safeParseIfJson, jsTruthy, jsGet, num, jsOr,
      alreadyExistsOfError, jsIndex, jsToString, strToNumOr0, jsStrUpper, bodyTruthy],
    by simp +decide [extractCounts, bodyC4, safeParseIfJson, jsTruthy, jsGet, num, jsOr,
      alreadyExistsOfError, jsIndex, jsToString, strToNumOr0, jsStrUpper, bodyTruthy],
    ?_⟩
  have hs : (sendDuplicateAware envC4 29000 4000 25000 1 [()] ⟨0, 0⟩).1.skippedDuplicates = 0 := by
    simp +decide [sendDuplicateAware, envC4, bodyC4, sendBatchesDirectToFlowch, enviarLote,
      calcEffectiveTimeout, extractCounts, safeParseIfJson, jsTruthy, jsGet, num, jsOr,
      bodyTruthy, firstBodyString, isCountedAsError, getStatus, isOk, reparseFirstBody,
      strOfOrEmpty, jsStrUpper, jsStrLower, strIncludes, charsContains, charsStartsWith,
      jsStringify, jsonEscape, isWholeBatchDuplicate, alreadyExistsOfError, jsIndex,
      jsToString, strToNumOr0]
  rw [hs]
  norm_num

/-- C4 (amended): a dispatched slice (positive budget, non-empty records)
whose results all extract zero insert/update/delete mutations and whose
first result signals at least `|slice|` duplicates is resolved as a whole
duplicate — `skippedDuplicates = |slice|`, zero mutation counters and a
single dispatch — provided the first result is not the invalid-URL early
exit (status 599 with `invalid url` in the body), which the source
resolves first. -/
theorem c4_whole_duplicate {α : Type} (env : Env α)
    (apigwSoftTimeoutMs margemSegurancaMs timeoutMs batchSizeEfetivo : Int)
    (records : List α) (st : St)
    (hne : records ≠ [])
    (hbudget : 0 < (calcEffectiveTimeout apigwSoftTimeoutMs margemSegurancaMs timeoutMs
      (env.elapsed st.nb)).2)
    (hzero : ∀ r ∈ (sendBatchesDirectToFlowch env.call records
        (max 1 (min batchSizeEfetivo (records.length : Int))) st.nc).1.results,
      (extractCounts r.body).inserted = 0 ∧ (extractCounts r.body).updated = 0 ∧
      (extractCounts r.body).deleted = 0)
    (hfirst : ∀ r0, ((sendBatchesDirectToFlowch env.call records
        (max 1 (min batchSizeEfetivo (records.length : Int))) st.nc).1.results).head? = some r0 →
      (records.length : Int) ≤ (extractCounts (if bodyTruthy r0.body then r0.body
          else .parsed (.obj []))).alreadyExists ∧
      ¬ (getStatus r0.statusCode = 599 ∧
         strIncludes (jsStrLower (firstBodyString r0.body)) "invalid url" = true)) :
    (sendDuplicateAware env apigwSoftTimeoutMs margemSegurancaMs timeoutMs batchSizeEfetivo
        records st).1.skippedDuplicates = (records.length : Int) ∧
    (sendDuplicateAware env apigwSoftTimeoutMs margemSegurancaMs timeoutMs batchSizeEfetivo
        records st).1.accepted = 0 ∧
    (sendDuplicateAware env apigwSoftTimeoutMs margemSegurancaMs timeoutMs batchSizeEfetivo
        records st).1.inserted = 0 ∧
    (sendDuplicateAware env apigwSoftTimeoutMs margemSegurancaMs timeoutMs batchSizeEfetivo
        records st).1.updated = 0 ∧
    (sendDuplicateAware env apigwSoftTimeoutMs margemSegurancaMs timeoutMs batchSizeEfetivo
        records st).1.deleted = 0 ∧
    (sendDuplicateAware env apigwSoftTimeoutMs margemSegurancaMs timeoutMs batchSizeEfetivo
        records st).1.batchesUsed = 1 := by
  have hlen : records.length ≠ 0 := by
    cases records with
    | nil => exact absurd rfl hne
    | cons c cs => simp
  rw [sendDuplicateAware]
  dsimp only
  rw [dif_neg hlen, if_neg (by omega)]
  split
  next hres =>
    exact absurd hres (sendBatches_results_ne_nil env.call records _ st.nc hne)
  next r0 rest hres =>
    have hr0mem : r0 ∈ (sendBatchesDirectToFlowch env.call records
        (max 1 (min batchSizeEfetivo (records.length : Int))) st.nc).1.results := by
      rw [hres]; exact List.mem_cons_self r0 rest
    have hz0 := hzero r0 hr0mem
    obtain ⟨hAE, hnotUrl⟩ := hfirst r0 (by rw [hres]; rfl)
    have hAEpos : 0 < (extractCounts (if bodyTruthy r0.body then r0.body
        else .parsed (.obj []))).alreadyExists := by
      have : (1 : Int) ≤ (records.length : Int) := by
        have := hlen
        omega
      omega
    have hmergezero :
        (extractCounts (if bodyTruthy r0.body then r0.body else .parsed (.obj []))).inserted = 0 ∧
        (extractCounts (if bodyTruthy r0.body then r0.body else .parsed (.obj []))).updated = 0 ∧
        (extractCounts (if bodyTruthy r0.body then r0.body else .parsed (.obj []))).deleted = 0 := by
      by_cases hb : bodyTruthy r0.body = true
      · rw [if_pos hb]; exact hz0
      · rw [if_neg hb]
        refine ⟨rfl, rfl, rfl⟩
    rw [if_neg hnotUrl]
    rw [if_neg (fun hc => hc.1 (Or.inr hAEpos))]
    have hsums : ((r0 :: rest).map (fun r => (extractCounts r.body).inserted)).sum = 0 ∧
        ((r0 :: rest).map (fun r => (extractCounts r.body).updated)).sum = 0 ∧
        ((r0 :: rest).map (fun r => (extractCounts r.body).deleted)).sum = 0 := by
      refine ⟨List.sum_eq_zero ?_, List.sum_eq_zero ?_, List.sum_eq_zero ?_⟩ <;>
        · intro x hx
          simp only [List.mem_map] at hx
          obtain ⟨r, hr, hxeq⟩ := hx
          have := hzero r (by rw [hres]; exact hr)
          omega
    rw [if_neg (by rw [hsums.1, hsums.2.1, hsums.2.2]; rintro ⟨-, hpos⟩; omega)]
    have hW : isWholeBatchDuplicate records.length
        (extractCounts (if bodyTruthy r0.body then r0.body else .parsed (.obj [])))
        (getStatus r0.statusCode) = true := by
      rw [isWholeBatchDuplicate]
      rw [if_neg (by rw [hmergezero.1, hmergezero.2.1, hmergezero.2.2]; omega)]
      rw [if_neg (by omega)]
      by_cases h4 : getStatus r0.statusCode = 400 ∧
          (extractCounts (if bodyTruthy r0.body then r0.body
            else .parsed (.obj []))).alreadyExists ≥ (records.length : Int)
      · rw [if_pos h4]
      · rw [if_neg h4]
        exact decide_eq_true hAE
    rw [if_pos hW]
    refine ⟨rfl, rfl, rfl, rfl, rfl, rfl⟩

/-- C4 witness: a 400 response with two `ALREADY_EXISTS` signals makes a
two-record slice resolve as a whole duplicate in one dispatch. -/
theorem c4_whole_duplicate_witness :
    (sendDuplicateAware envDup 29000 4000 25000 2 [(), ()] ⟨0, 0⟩).1.skippedDuplicates =
      (([(), ()] : List Unit).length : Int) ∧
    (sendDuplicateAware envDup 29000 4000 25000 2 [(), ()] ⟨0, 0⟩).1.batchesUsed = 1 := by
  have h := c4_whole_duplicate envDup 29000 4000 25000 2 [(), ()] ⟨0, 0⟩
    (by simp)
    (by norm_num [calcEffectiveTimeout, envDup])
    (by
      intro r hr
      simp only [sendBatchesDirectToFlowch, envDup, enviarLote, dividirEmLotes] at hr
      norm_num at hr
      subst hr
      refine ⟨by simp +decide [extractCounts, safeParseIfJson, jsTruthy, jsGet, num, jsOr,
          alreadyExistsOfError, jsIndex, jsToString, strToNumOr0, jsStrUpper],
        by simp +decide [extractCounts, safeParseIfJson, jsTruthy, jsGet, num, jsOr,
          alreadyExistsOfError, jsIndex, jsToString, strToNumOr0, jsStrUpper],
        by simp +decide [extractCounts, safeParseIfJson, jsTruthy, jsGet, num, jsOr,
          alreadyExistsOfError, jsIndex, jsToString, strToNumOr0, jsStrUpper]⟩)
    (by
      intro r0 hr0
      simp only [sendBatchesDirectToFlowch, envDup, enviarLote, dividirEmLotes] at hr0
      norm_num at hr0
      subst hr0
      constructor
      · simp +decide [extractCounts, safeParseIfJson, jsTruthy, jsGet, num, jsOr,
          alreadyExistsOfError, jsIndex, jsToString, strToNumOr0, jsStrUpper, bodyTruthy]
      · simp +decide [getStatus])
  exact ⟨h.1, h.2.2.2.2.2⟩

theorem extractCounts_empty_obj : extractCounts (.parsed (.obj [])) =
    { inserted := 0, updated := 0, deleted := 0, alreadyExists := 0 } := by
  simp [extractCounts, safeParseIfJson, jsTruthy, jsGet, num, jsOr]

theorem extractCounts_inserted_only (n : Int) (hn : n ≠ 0) :
    extractCounts (.parsed (.obj [("recordsInserted", .num n)])) =
    { inserted := n, updated := 0, deleted := 0, alreadyExists := 0 } := by
  simp [extractCounts, safeParseIfJson, jsTruthy, jsGet, num, jsOr, hn,
    alreadyExistsOfError]

theorem offender_fast_clean (bs : Int) (records : List Bool) (hbs : (records.length : Int) ≤ bs)
    (nc : Nat) (hcont : records.contains true = false) :
    (sendBatchesDirectToFlowch envOffender.call records
      (max 1 (min bs (records.length : Int))) nc).1.results =
    [{ batchIndex := 1, size := records.length, statusCode := 200,
       body := .parsed (.obj [("recordsInserted", .num (records.length : Int))]) }] := by
  rw [sendBatchesDirectToFlowch, if_pos (by omega)]
  have hmem : ¬ (true ∈ records) := by simpa using hcont
  simp [envOffender, enviarLote, hmem]

theorem offender_fast_bad (bs : Int) (records : List Bool) (hbs : (records.length : Int) ≤ bs)
    (nc : Nat) (hcont : records.contains true = true) :
    (sendBatchesDirectToFlowch envOffender.call records
      (max 1 (min bs (records.length : Int))) nc).1.results =
    [{ batchIndex := 1, size := records.length, statusCode := 400,
       body := .parsed (.obj []) }] := by
  rw [sendBatchesDirectToFlowch, if_pos (by omega)]
  have hmem : true ∈ records := by simpa using hcont
  simp [envOffender, enviarLote, hmem]

theorem offender_clean_one (bs : Int) (records : List Bool) (h0 : records.length ≠ 0)
    (hbs : (records.length : Int) ≤ bs) (hcont : records.contains true = false) (st : St) :
    (sendDuplicateAware envOffender 29000 4000 25000 bs records st).1.batchesUsed = 1 := by
  rw [sendDuplicateAware]
  dsimp only
  rw [dif_neg h0, if_neg (by norm_num [calcEffectiveTimeout, envOffender])]
  rw [offender_fast_clean bs records hbs st.nc hcont]
  split
  next h => exact absurd h (by simp)
  next r0 rest h =>
    injection h with h1 h2
    subst h1
    subst h2
    rw [if_neg (by simp [getStatus])]
    rw [if_neg ?hschema]
    case hschema =>
      rintro ⟨-, hsch⟩
      simp only [reparseFirstBody] at hsch
      rcases hsch with hc | hs | hm <;>
        simp +decide [jsGet, strOfOrEmpty, jsStrUpper, jsStrLower, strIncludes,
          charsContains, charsStartsWith, jsToString, jsIndex, jsTruthy] at *
    rw [if_pos ?hhappy]
    case hhappy =>
      constructor
      · simp [isOk, getStatus]
      · have hne : (records.length : Int) ≠ 0 := by
          omega
        simp only [List.map_cons, List.map_nil, List.sum_cons, List.sum_nil,
          extractCounts_inserted_only (records.length : Int) hne]
        omega

theorem offender_calls_bound (bs : Int) :
    ∀ (n : Nat) (records : List Bool), records.length = n → (records.length : Int) ≤ bs →
      records.count true = 1 → ∀ st : St,
      (sendDuplicateAware envOffender 29000 4000 25000 bs records st).1.batchesUsed ≤
        2 * Nat.clog 2 records.length + 1 := by
  intro n
  induction n using Nat.strong_induction_on with
  | _ n ih =>
    intro records hlen hbs hcount st
    have hcl := List.count_le_length true records
    have h0 : records.length ≠ 0 := by omega
    have hmem : true ∈ records := by
      have : 0 < records.count true := by omega
      exact List.count_pos_iff.mp this
    have hcont : records.contains true = true := by simpa using hmem
    rw [sendDuplicateAware]
    dsimp only
    rw [dif_neg h0, if_neg (by norm_num [calcEffectiveTimeout, envOffender])]
    rw [offender_fast_bad bs records hbs st.nc hcont]
    split
    next h => exact absurd h (by simp)
    next r0 rest h =>
      injection h with h1 h2
      subst h1
      subst h2
      rw [if_neg (by simp [getStatus])]
      rw [if_neg ?hschema2]
      case hschema2 =>
        rintro ⟨-, hsch⟩
        simp only [reparseFirstBody] at hsch
        rcases hsch with hc | hs | hm <;>
          simp +decide [jsGet, strOfOrEmpty, jsStrUpper, jsStrLower, strIncludes,
            charsContains, charsStartsWith, jsToString, jsIndex, jsTruthy] at *
      rw [if_neg ?hhappy2]
      case hhappy2 =>
        rintro ⟨hok, -⟩
        simp [isOk, getStatus] at hok
      rw [if_neg ?hdup2]
      case hdup2 =>
        intro hdup
        rw [isWholeBatchDuplicate] at hdup
        simp only [ite_self, extractCounts_empty_obj, getStatus] at hdup
        rw [if_neg (by norm_num)] at hdup
        rw [if_neg (by omega)] at hdup
        rw [if_neg (fun hcc => absurd hcc.2 (by omega))] at hdup
        simp only [ge_iff_le, decide_eq_true_eq] at hdup
        omega
      by_cases h1 : records.length = 1
      · rw [dif_pos h1]
        dsimp only
        omega
      · rw [dif_neg h1]
        dsimp only
        have hlen2 : 2 ≤ records.length := by omega
        have hsumcount : (records.take (records.length / 2)).count true +
            (records.drop (records.length / 2)).count true = records.count true := by
          rw [← List.count_append, List.take_append_drop]
        have htl : (records.take (records.length / 2)).length = records.length / 2 := by
          simp only [List.length_take]
          omega
        have hdl : (records.drop (records.length / 2)).length =
            records.length - records.length / 2 := by
          simp only [List.length_drop]
        have hclog := Nat.clog_of_two_le (by norm_num : 1 < 2) hlen2
        norm_num at hclog
        rcases Nat.lt_or_ge 0 ((records.take (records.length / 2)).count true) with htk | htk
        · -- the offender sits in the left half; the right half is clean
          have htk1 : (records.take (records.length / 2)).count true = 1 := by
            have := List.count_le_length true (records.take (records.length / 2))
            omega
          have hdr0 : (records.drop (records.length / 2)).count true = 0 := by omega
          have hdrcont : (records.drop (records.length / 2)).contains true = false := by
            have hnm : ¬ (true ∈ records.drop (records.length / 2)) := by
              intro hm
              have := List.count_pos_iff.mpr hm
              omega
            simpa using hnm
          have hLb := ih (records.take (records.length / 2)).length (by rw [htl]; omega)
            (records.take (records.length / 2)) rfl
            (by rw [htl]; push_cast; omega) htk1
            ⟨st.nb + 1, (sendBatchesDirectToFlowch envOffender.call records
              (max 1 (min bs (records.length : Int))) st.nc).2⟩
          rw [htl] at hLb
          have hRb := offender_clean_one bs (records.drop (records.length / 2))
            (by rw [hdl]; omega)
            (by rw [hdl]; omega) hdrcont
            (sendDuplicateAware envOffender 29000 4000 25000 bs
              (records.take (records.length / 2))
              ⟨st.nb + 1, (sendBatchesDirectToFlowch envOffender.call records
                (max 1 (min bs (records.length : Int))) st.nc).2⟩).2
          have hmono := Nat.clog_mono_right 2
            (show records.length / 2 ≤ (records.length + 1) / 2 by omega)
          omega
        · -- the offender sits in the right half; the left half is clean
          have hdr1 : (records.drop (records.length / 2)).count true = 1 := by omega
          have htk0 : (records.take (records.length / 2)).count true = 0 := by omega
          have htkcont : (records.take (records.length / 2)).contains true = false := by
            have hnm : ¬ (true ∈ records.take (records.length / 2)) := by
              intro hm
              have := List.count_pos_iff.mpr hm
              omega
            simpa using hnm
          have hLb := offender_clean_one bs (records.take (records.length / 2))
            (by rw [htl]; omega)
            (by rw [htl]; push_cast; omega) htkcont
            ⟨st.nb + 1, (sendBatchesDirectToFlowch envOffender.call records
              (max 1 (min bs (records.length : Int))) st.nc).2⟩
          have hRb := ih (records.drop (records.length / 2)).length (by rw [hdl]; omega)
            (records.drop (records.length / 2)) rfl
            (by rw [hdl]; omega) hdr1
            (sendDuplicateAware envOffender 29000 4000 25000 bs
              (records.take (records.length / 2))
              ⟨st.nb + 1, (sendBatchesDirectToFlowch envOffender.call records
                (max 1 (min bs (records.length : Int))) st.nc).2⟩).2
          rw [hdl] at hRb
          have heq2 : records.length - records.length / 2 = (records.length + 1) / 2 := by
            omega
          rw [heq2] at hRb
          omega

theorem sendDA_singleton_skip {α : Type} (env : Env α)
    (apigwSoftTimeoutMs margemSegurancaMs timeoutMs batchSizeEfetivo : Int) (x : α) (st : St)
    (hbudget : 0 < (calcEffectiveTimeout apigwSoftTimeoutMs margemSegurancaMs timeoutMs
      (env.elapsed st.nb)).2) :
    (sendDuplicateAware env apigwSoftTimeoutMs margemSegurancaMs timeoutMs batchSizeEfetivo
      [x] st).1.fatalError = none →
    (sendDuplicateAware env apigwSoftTimeoutMs margemSegurancaMs timeoutMs batchSizeEfetivo
      [x] st).1.accepted = 0 →
    (sendDuplicateAware env apigwSoftTimeoutMs margemSegurancaMs timeoutMs batchSizeEfetivo
      [x] st).1.skippedDuplicates = 1 ∧
    (sendDuplicateAware env apigwSoftTimeoutMs margemSegurancaMs timeoutMs batchSizeEfetivo
      [x] st).1.batchesUsed = 1 := by
  rw [sendDuplicateAware]
  dsimp only
  rw [dif_neg (by simp)]
  rw [if_neg (by omega)]
  split
  next h => exact absurd h (sendBatches_results_ne_nil _ _ _ _ (by simp))
  next r0 rest h =>
    by_cases hurl : (getStatus r0.statusCode = 599 ∧
        strIncludes (jsStrLower (firstBodyString r0.body)) "invalid url" = true)
    · rw [if_pos hurl]
      intro hf
      exact absurd hf (by simp)
    · rw [if_neg hurl]
      by_cases hsch : ((¬ ((extractCounts (if bodyTruthy r0.body = true then r0.body
            else Body.parsed (Json.obj []))).inserted +
          (extractCounts (if bodyTruthy r0.body = true then r0.body
            else Body.parsed (Json.obj []))).updated +
          (extractCounts (if bodyTruthy r0.body = true then r0.body
            else Body.parsed (Json.obj []))).deleted > 0 ∨
          (extractCounts (if bodyTruthy r0.body = true then r0.body
            else Body.parsed (Json.obj []))).alreadyExists > 0)) ∧
          (jsStrUpper (strOfOrEmpty (jsGet
            (match ((jsGet (reparseFirstBody r0.body) "errors").bind
                (fun es => jsIndex es 0)).bind (fun e => jsGet e "erro") with
             | some j => if jsTruthy j = true then j else Json.obj []
             | none => Json.obj []) "code")) = "ER_BAD_FIELD_ERROR" ∨
           strOfOrEmpty (jsGet
            (match ((jsGet (reparseFirstBody r0.body) "errors").bind
                (fun es => jsIndex es 0)).bind (fun e => jsGet e "erro") with
             | some j => if jsTruthy j = true then j else Json.obj []
             | none => Json.obj []) "sqlState") = "42S22" ∨
           strIncludes (jsStrLower (strOfOrEmpty (jsGet
            (match ((jsGet (reparseFirstBody r0.body) "errors").bind
                (fun es => jsIndex es 0)).bind (fun e => jsGet e "erro") with
             | some j => if jsTruthy j = true then j else Json.obj []
             | none => Json.obj []) "sqlMessage"))) "unknown column" = true))
      · rw [if_pos hsch]
        intro hf
        exact absurd hf (by simp)
      · rw [if_neg hsch]
        by_cases hhap : (((r0 :: rest).any fun r => isOk r.statusCode) = true ∧
            (List.map (fun r => (extractCounts r.body).inserted) (r0 :: rest)).sum +
            (List.map (fun r => (extractCounts r.body).updated) (r0 :: rest)).sum +
            (List.map (fun r => (extractCounts r.body).deleted) (r0 :: rest)).sum > 0)
        · rw [if_pos hhap]
          intro hf ha
          dsimp only at ha
          exact absurd ha (by have := hhap.2; omega)
        · rw [if_neg hhap]
          by_cases hdup : isWholeBatchDuplicate [x].length
              (extractCounts (if bodyTruthy r0.body = true then r0.body
                else Body.parsed (Json.obj []))) (getStatus r0.statusCode) = true
          · rw [if_pos hdup]
            intro hf ha
            constructor
            · simp
            · rfl
          · rw [if_neg hdup]
            rw [dif_pos (by simp : ([x] : List α).length = 1)]
            intro hf ha
            constructor
            · rfl
            · rfl

theorem sendDA_split_eq {α : Type} (env : Env α)
    (apigwSoftTimeoutMs margemSegurancaMs timeoutMs batchSizeEfetivo : Int)
    (records : List α) (st : St) (r0 : DeliveryResult) (rest : List DeliveryResult)
    (h2 : 2 ≤ records.length)
    (hbudget : 0 < (calcEffectiveTimeout apigwSoftTimeoutMs margemSegurancaMs timeoutMs
      (env.elapsed st.nb)).2)
    (hres : (sendBatchesDirectToFlowch env.call records
      (max 1 (min batchSizeEfetivo (records.length : Int))) st.nc).1.results = r0 :: rest)
    (hurl : ¬ (getStatus r0.statusCode = 599 ∧
        strIncludes (jsStrLower (firstBodyString r0.body)) "invalid url" = true))
    (hsch : ¬ ((¬ ((extractCounts (if bodyTruthy r0.body = true then r0.body
            else Body.parsed (Json.obj []))).inserted +
          (extractCounts (if bodyTruthy r0.body = true then r0.body
            else Body.parsed (Json.obj []))).updated +
          (extractCounts (if bodyTruthy r0.body = true then r0.body
            else Body.parsed (Json.obj []))).deleted > 0 ∨
          (extractCounts (if bodyTruthy r0.body = true then r0.body
            else Body.parsed (Json.obj []))).alreadyExists > 0)) ∧
          (jsStrUpper (strOfOrEmpty (jsGet
            (match ((jsGet (reparseFirstBody r0.body) "errors").bind
                (fun es => jsIndex es 0)).bind (fun e => jsGet e "erro") with
             | some j => if jsTruthy j = true then j else Json.obj []
             | none => Json.obj []) "code")) = "ER_BAD_FIELD_ERROR" ∨
           strOfOrEmpty (jsGet
            (match ((jsGet (reparseFirstBody r0.body) "errors").bind
                (fun es => jsIndex es 0)).bind (fun e => jsGet e "erro") with
             | some j => if jsTruthy j = true then j else Json.obj []
             | none => Json.obj []) "sqlState") = "42S22" ∨
           strIncludes (jsStrLower (strOfOrEmpty (jsGet
            (match ((jsGet (reparseFirstBody r0.body) "errors").bind
                (fun es => jsIndex es 0)).bind (fun e => jsGet e "erro") with
             | some j => if jsTruthy j = true then j else Json.obj []
             | none => Json.obj []) "sqlMessage"))) "unknown column" = true)))
    (hhap : ¬ (((r0 :: rest).any fun r => isOk r.statusCode) = true ∧
        (List.map (fun r => (extractCounts r.body).inserted) (r0 :: rest)).sum +
        (List.map (fun r => (extractCounts r.body).updated) (r0 :: rest)).sum +
        (List.map (fun r => (extractCounts r.body).deleted) (r0 :: rest)).sum > 0))
    (hdup : ¬ (isWholeBatchDuplicate records.length
        (extractCounts (if bodyTruthy r0.body = true then r0.body
          else Body.parsed (Json.obj []))) (getStatus r0.statusCode) = true)) :
    sendDuplicateAware env apigwSoftTimeoutMs margemSegurancaMs timeoutMs batchSizeEfetivo
        records st =
      (let leftRun := sendDuplicateAware env apigwSoftTimeoutMs margemSegurancaMs timeoutMs
         batchSizeEfetivo (records.take (records.length / 2))
         ⟨st.nb + 1, (sendBatchesDirectToFlowch env.call records
           (max 1 (min batchSizeEfetivo (records.length : Int))) st.nc).2⟩
       let rightRun := sendDuplicateAware env apigwSoftTimeoutMs margemSegurancaMs timeoutMs
         batchSizeEfetivo (records.drop (records.length / 2)) leftRun.2
       ({ accepted := leftRun.1.accepted + rightRun.1.accepted,
          inserted := leftRun.1.inserted + rightRun.1.inserted,
          updated := leftRun.1.updated + rightRun.1.updated,
          deleted := rightRun.1.deleted + leftRun.1.deleted,
          skippedDuplicates := leftRun.1.skippedDuplicates + rightRun.1.skippedDuplicates,
          errosBatchesCountDelta :=
            (((r0 :: rest).filter (fun r => isCountedAsError r.statusCode)).length : Int) +
            leftRun.1.errosBatchesCountDelta + rightRun.1.errosBatchesCountDelta,
          batchesUsed := 1 + leftRun.1.batchesUsed + rightRun.1.batchesUsed,
          budgetLeft :=
            match rightRun.1.budgetLeft with
            | some b => some b
            | none => leftRun.1.budgetLeft,
          usedAdaptiveSplit := leftRun.1.usedAdaptiveSplit ||
            rightRun.1.usedAdaptiveSplit || true,
          fatalError := none }, rightRun.2)) ∧
    0 < (records.take (records.length / 2)).length ∧
    (records.take (records.length / 2)).length < records.length ∧
    0 < (records.drop (records.length / 2)).length ∧
    (records.drop (records.length / 2)).length < records.length := by
  refine ⟨?_, by simp only [List.length_take]; omega, by simp only [List.length_take]; omega,
    by simp only [List.length_drop]; omega, by simp only [List.length_drop]; omega⟩
  rw [sendDuplicateAware]
  dsimp only
  rw [dif_neg (by omega), if_neg (by omega)]
  rw [hres]
  split
  next h => exact absurd h.symm (by simp)
  next r0p restp h =>
    injection h with h1 h2x
    subst h1
    subst h2x
    rw [if_neg hurl, if_neg hsch, if_neg hhap, if_neg hdup, dif_neg (by omega)]

/-- C5: termination and cost of the duplicate-aware resolution.  (i) a
still-unresolved slice of size 1 under positive budget is skipped
unconditionally (one skip, one dispatch, no further split); (ii) an
unresolved slice of size `n ≥ 2` bisects at `floor(n / 2)` into two
strictly smaller, non-empty halves, the left resolved first (the right
recursion starts from the left's final oracle cursor) and the counters
merged; (iii) isolating a single rejected record among `n` records costs
at most `2 * clog2 n + 1` dispatches. -/
theorem c5_termination_split_cost :
    (∀ (α : Type) (env : Env α)
       (apigwSoftTimeoutMs margemSegurancaMs timeoutMs batchSizeEfetivo : Int) (x : α)
       (st : St),
       0 < (calcEffectiveTimeout apigwSoftTimeoutMs margemSegurancaMs timeoutMs
         (env.elapsed st.nb)).2 →
       (sendDuplicateAware env apigwSoftTimeoutMs margemSegurancaMs timeoutMs batchSizeEfetivo
         [x] st).1.fatalError = none →
       (sendDuplicateAware env apigwSoftTimeoutMs margemSegurancaMs timeoutMs batchSizeEfetivo
         [x] st).1.accepted = 0 →
       (sendDuplicateAware env apigwSoftTimeoutMs margemSegurancaMs timeoutMs batchSizeEfetivo
         [x] st).1.skippedDuplicates = 1 ∧
       (sendDuplicateAware env apigwSoftTimeoutMs margemSegurancaMs timeoutMs batchSizeEfetivo
         [x] st).1.batchesUsed = 1) ∧
    (∀ (α : Type) (env : Env α)
       (apigwSoftTimeoutMs margemSegurancaMs timeoutMs batchSizeEfetivo : Int)
       (records : List α) (st : St) (r0 : DeliveryResult) (rest : List DeliveryResult),
       2 ≤ records.length →
       0 < (calcEffectiveTimeout apigwSoftTimeoutMs margemSegurancaMs timeoutMs
         (env.elapsed st.nb)).2 →
       (sendBatchesDirectToFlowch env.call records
         (max 1 (min batchSizeEfetivo (records.length : Int))) st.nc).1.results = r0 :: rest →
       unresolvedDecision records.length (r0 :: rest) →
       sendDuplicateAware env apigwSoftTimeoutMs margemSegurancaMs timeoutMs batchSizeEfetivo
           records st =
         (let leftRun := sendDuplicateAware env apigwSoftTimeoutMs margemSegurancaMs timeoutMs
            batchSizeEfetivo (records.take (records.length / 2))
            ⟨st.nb + 1, (sendBatchesDirectToFlowch env.call records
              (max 1 (min batchSizeEfetivo (records.length : Int))) st.nc).2⟩
          let rightRun := sendDuplicateAware env apigwSoftTimeoutMs margemSegurancaMs timeoutMs
            batchSizeEfetivo (records.drop (records.length / 2)) leftRun.2
          ({ accepted := leftRun.1.accepted + rightRun.1.accepted,
             inserted := leftRun.1.inserted + rightRun.1.inserted,
             updated := leftRun.1.updated + rightRun.1.updated,
             deleted := rightRun.1.deleted + leftRun.1.deleted,
             skippedDuplicates := leftRun.1.skippedDuplicates + rightRun.1.skippedDuplicates,
             errosBatchesCountDelta :=
               (((r0 :: rest).filter (fun r => isCountedAsError r.statusCode)).length : Int) +
               leftRun.1.errosBatchesCountDelta + rightRun.1.errosBatchesCountDelta,
             batchesUsed := 1 + leftRun.1.batchesUsed + rightRun.1.batchesUsed,
             budgetLeft :=
               match rightRun.1.budgetLeft with
               | some b => some b
               | none => leftRun.1.budgetLeft,
             usedAdaptiveSplit := leftRun.1.usedAdaptiveSplit ||
               rightRun.1.usedAdaptiveSplit || true,
             fatalError := none }, rightRun.2)) ∧
       0 < (records.take (records.length / 2)).length ∧
       (records.take (records.length / 2)).length < records.length ∧
       0 < (records.drop (records.length / 2)).length ∧
       (records.drop (records.length / 2)).length < records.length) ∧
    (∀ (batchSizeEfetivo : Int) (records : List Bool),
       (records.length : Int) ≤ batchSizeEfetivo → records.count true = 1 → ∀ st : St,
       (sendDuplicateAware envOffender 29000 4000 25000 batchSizeEfetivo records st).1.batchesUsed ≤
         2 * Nat.clog 2 records.length + 1) := by
  refine ⟨?_, ?_, ?_⟩
  · intro α env a m t bs x st hb hf ha
    exact sendDA_singleton_skip env a m t bs x st hb hf ha
  · intro α env a m t bs records st r0 rest h2 hb hres hun
    obtain ⟨hurl, hsch, hhap, hdup⟩ := hun
    exact sendDA_split_eq env a m t bs records st r0 rest h2 hb hres hurl hsch hhap hdup
  · intro bs records hbs hcount st
    exact offender_calls_bound bs records.length records rfl hbs hcount st

/-- C5 witness: a single never-accepted record is skipped in one dispatch,
and isolating the single rejected record of a 4-record slice uses at most
`2 * clog2 4 + 1 = 5` dispatches. -/
theorem c5_termination_split_cost_witness :
    ((sendDuplicateAware envNeutral 29000 4000 25000 1 [()] ⟨0, 0⟩).1.skippedDuplicates = 1 ∧
     (sendDuplicateAware envNeutral 29000 4000 25000 1 [()] ⟨0, 0⟩).1.batchesUsed = 1) ∧
    (sendDuplicateAware envOffender 29000 4000 25000 4 [false, true, false, false]
        ⟨0, 0⟩).1.batchesUsed ≤
      2 * Nat.clog 2 ([false, true, false, false] : List Bool).length + 1 := by
  constructor
  · refine c5_termination_split_cost.1 Unit envNeutral 29000 4000 25000 1 () ⟨0, 0⟩
      (by norm_num [calcEffectiveTimeout, envNeutral]) ?_ ?_
    · simp +decide [sendDuplicateAware, envNeutral, sendBatchesDirectToFlowch, enviarLote,
        calcEffectiveTimeout, extractCounts, safeParseIfJson, jsTruthy, jsGet, num, jsOr,
        bodyTruthy, firstBodyString, isCountedAsError, getStatus, isOk, reparseFirstBody,
        strOfOrEmpty, jsStrUpper, jsStrLower, strIncludes, charsContains, charsStartsWith,
        jsStringify, jsonEscape, isWholeBatchDuplicate, alreadyExistsOfError, jsIndex,
        jsToString, strToNumOr0]
    · simp +decide [sendDuplicateAware, envNeutral, sendBatchesDirectToFlowch, enviarLote,
        calcEffectiveTimeout, extractCounts, safeParseIfJson, jsTruthy, jsGet, num, jsOr,
        bodyTruthy, firstBodyString, isCountedAsError, getStatus, isOk, reparseFirstBody,
        strOfOrEmpty, jsStrUpper, jsStrLower, strIncludes, charsContains, charsStartsWith,
        jsStringify, jsonEscape, isWholeBatchDuplicate, alreadyExistsOfError, jsIndex,
        jsToString, strToNumOr0]
  · exact c5_termination_split_cost.2.2 4 [false, true, false, false] (by norm_num)
      (by decide) ⟨0, 0⟩

theorem sendBatches_nc_lt {α : Type} (call : Nat → List α → HttpOutcome α)
    (records : List α) (batchSize : Int) (nc : Nat) (hne : records.length ≠ 0) :
    nc < (sendBatchesDirectToFlowch call records batchSize nc).2 := by
  rw [sendBatchesDirectToFlowch]
  split
  · simp
  · cases records with
    | nil => exact absurd rfl hne
    | cons c cs =>
        rw [dividirEmLotes, dividirAux]
        simp

theorem sendDA_nc_mono {α : Type} (env : Env α)
    (apigwSoftTimeoutMs margemSegurancaMs timeoutMs batchSizeEfetivo : Int) :
    ∀ (n : Nat) (records : List α), records.length = n → ∀ st : St,
      st.nc ≤ (sendDuplicateAware env apigwSoftTimeoutMs margemSegurancaMs timeoutMs
        batchSizeEfetivo records st).2.nc := by
  intro n
  induction n using Nat.strong_induction_on with
  | _ n ih =>
    intro records hlen st
    rw [sendDuplicateAware]
    dsimp only
    by_cases h0 : records.length = 0
    · rw [dif_pos h0]
    · rw [dif_neg h0]
      split
      · simp
      · have hnc : st.nc ≤ (sendBatchesDirectToFlowch env.call records
            (max 1 (min batchSizeEfetivo (records.length : Int))) st.nc).2 :=
          le_of_lt (sendBatches_nc_lt env.call records _ st.nc h0)
        repeat' split
        all_goals try exact hnc
        all_goals
          (refine le_trans hnc (le_trans (ih (records.take (records.length / 2)).length
            (by simp only [List.length_take]; omega) (records.take (records.length / 2)) rfl
            ⟨st.nb + 1, (sendBatchesDirectToFlowch env.call records
              (max 1 (min batchSizeEfetivo (records.length : Int))) st.nc).2⟩)
            (ih (records.drop (records.length / 2)).length
              (by simp only [List.length_drop]; omega) (records.drop (records.length / 2)) rfl
              (sendDuplicateAware env apigwSoftTimeoutMs margemSegurancaMs timeoutMs
                batchSizeEfetivo (records.take (records.length / 2))
                ⟨st.nb + 1, (sendBatchesDirectToFlowch env.call records
                  (max 1 (min batchSizeEfetivo (records.length : Int))) st.nc).2⟩).2)))

theorem sendDA_noBudget {α : Type} (env : Env α)
    (apigwSoftTimeoutMs margemSegurancaMs timeoutMs batchSizeEfetivo : Int)
    (records : List α) (st : St) (hne : records.length ≠ 0)
    (hb : (calcEffectiveTimeout apigwSoftTimeoutMs margemSegurancaMs timeoutMs
      (env.elapsed st.nb)).2 ≤ 0) :
    sendDuplicateAware env apigwSoftTimeoutMs margemSegurancaMs timeoutMs batchSizeEfetivo
        records st =
      ({ accepted := 0, inserted := 0, updated := 0, deleted := 0,
         skippedDuplicates := 0, errosBatchesCountDelta := 0, batchesUsed := 0,
         budgetLeft := some (calcEffectiveTimeout apigwSoftTimeoutMs margemSegurancaMs
           timeoutMs (env.elapsed st.nb)).2,
         usedAdaptiveSplit := true, fatalError := none }, ⟨st.nb + 1, st.nc⟩) := by
  rw [sendDuplicateAware]
  dsimp only
  rw [dif_neg hne, if_pos hb]

theorem sendDA_calls_pos {α : Type} (env : Env α)
    (apigwSoftTimeoutMs margemSegurancaMs timeoutMs batchSizeEfetivo : Int)
    (records : List α) (st : St) (hne : records.length ≠ 0)
    (hb : 0 < (calcEffectiveTimeout apigwSoftTimeoutMs margemSegurancaMs timeoutMs
      (env.elapsed st.nb)).2) :
    st.nc < (sendDuplicateAware env apigwSoftTimeoutMs margemSegurancaMs timeoutMs
      batchSizeEfetivo records st).2.nc := by
  rw [sendDuplicateAware]
  dsimp only
  rw [dif_neg hne, if_neg (by omega)]
  have hnc : st.nc < (sendBatchesDirectToFlowch env.call records
      (max 1 (min batchSizeEfetivo (records.length : Int))) st.nc).2 :=
    sendBatches_nc_lt env.call records _ st.nc hne
  repeat' split
  all_goals try exact hnc
  all_goals
    (refine lt_of_lt_of_le hnc (le_trans (sendDA_nc_mono env apigwSoftTimeoutMs
      margemSegurancaMs timeoutMs batchSizeEfetivo
      (records.take (records.length / 2)).length (records.take (records.length / 2)) rfl
      ⟨st.nb + 1, (sendBatchesDirectToFlowch env.call records
        (max 1 (min batchSizeEfetivo (records.length : Int))) st.nc).2⟩)
      (sendDA_nc_mono env apigwSoftTimeoutMs margemSegurancaMs timeoutMs batchSizeEfetivo
        (records.drop (records.length / 2)).length (records.drop (records.length / 2)) rfl
        (sendDuplicateAware env apigwSoftTimeoutMs margemSegurancaMs timeoutMs
          batchSizeEfetivo (records.take (records.length / 2))
          ⟨st.nb + 1, (sendBatchesDirectToFlowch env.call records
            (max 1 (min batchSizeEfetivo (records.length : Int))) st.nc).2⟩).2)))

/-- C3 (amended): with records remaining, the controller issues at least
one HTTP call for the first slice if and only if the remaining budget is
positive before that slice: an exhausted budget returns a checkpoint
without any dispatch, a positive budget dispatches the slice. -/
theorem c3_first_slice_budget_gate {α : Type} (env : Env α) (registros : List α)
    (offsetInicial : Nat) (batchSize batchSizeSugerido timeoutMs apigwSoftTimeoutMs
    margemSegurancaMs totalLinhas : Int) (st : St)
    (hoff : offsetInicial < registros.length) :
    ((calcEffectiveTimeout apigwSoftTimeoutMs margemSegurancaMs timeoutMs
        (env.elapsed st.nb)).2 ≤ 0 →
      (executarEnvioDireto env registros offsetInicial batchSize batchSizeSugerido timeoutMs
        apigwSoftTimeoutMs margemSegurancaMs totalLinhas false st).2.nc = st.nc) ∧
    (0 < (calcEffectiveTimeout apigwSoftTimeoutMs margemSegurancaMs timeoutMs
        (env.elapsed st.nb)).2 →
      st.nc < (executarEnvioDireto env registros offsetInicial batchSize batchSizeSugerido
        timeoutMs apigwSoftTimeoutMs margemSegurancaMs totalLinhas false st).2.nc) := by
  have hbe : 0 < (if (if batchSizeSugerido > 0 then batchSizeSugerido else (0 : Int)) > 0
      then (if batchSizeSugerido > 0 then batchSizeSugerido else 0)
      else (if batchSize > 0 then batchSize else 20)).toNat := by
    split_ifs <;> omega
  rw [executarEnvioDireto]
  dsimp only
  rw [if_neg (by simp)]
  rw [if_pos (show min offsetInicial registros.length < registros.length by omega)]
  rw [if_neg ?hfa]
  case hfa =>
    simp only [List.length_take, List.length_drop]
    omega
  constructor
  · intro hb
    rw [sendDA_noBudget env apigwSoftTimeoutMs margemSegurancaMs timeoutMs _ _ st
      (by simp only [List.length_take, List.length_drop]; omega) hb]
    rw [if_neg (by simp)]
    simp only [apply_ite Prod.snd, ite_self]
  · intro hb
    have hcalls := sendDA_calls_pos env apigwSoftTimeoutMs margemSegurancaMs timeoutMs
      (if (if batchSizeSugerido > 0 then batchSizeSugerido else (0 : Int)) > 0
        then (if batchSizeSugerido > 0 then batchSizeSugerido else 0)
        else (if batchSize > 0 then batchSize else 20))
      ((registros.drop (min offsetInicial registros.length)).take
        (min (min offsetInicial registros.length +
          (if (if batchSizeSugerido > 0 then batchSizeSugerido else (0 : Int)) > 0
            then (if batchSizeSugerido > 0 then batchSizeSugerido else 0)
            else (if batchSize > 0 then batchSize else 20)).toNat) registros.length -
          min offsetInicial registros.length)) st
      (by simp only [List.length_take, List.length_drop]; omega) hb
    simp only [apply_ite Prod.snd, ite_self]
    exact hcalls

/-- C3 counterexample: with the budget already exhausted before the first
slice of a non-empty remaining range, the controller issues no HTTP call
at all (the oracle cursor stays at 0), contradicting the claimed
unconditional first-slice dispatch. -/
theorem c3_counterexample :
    (calcEffectiveTimeout 29000 4000 25000 (envBudget0.elapsed 0)).2 ≤ 0 ∧
    0 < ([(), ()] : List Unit).length ∧
    ¬ (0 < (executarEnvioDireto envBudget0 [(), ()] 0 2 0 25000 29000 4000 2
        false ⟨0, 0⟩).2.nc) := by
  refine ⟨by norm_num [calcEffectiveTimeout, envBudget0], by norm_num, ?_⟩
  have h : (executarEnvioDireto envBudget0 [(), ()] 0 2 0 25000 29000 4000 2
      false ⟨0, 0⟩).2.nc = 0 := by
    simp +decide [executarEnvioDireto, envBudget0, sendDuplicateAware, sendBatchesDirectToFlowch,
      enviarLote, calcEffectiveTimeout, extractCounts, safeParseIfJson, jsTruthy, jsGet, num,
      jsOr, bodyTruthy, firstBodyString, isCountedAsError, getStatus, isOk, reparseFirstBody,
      strOfOrEmpty, jsStrUpper, jsStrLower, strIncludes, charsContains, charsStartsWith,
      jsStringify, jsonEscape, isWholeBatchDuplicate, alreadyExistsOfError, jsIndex,
      jsToString, strToNumOr0, buildSummary]
  omega

/-- C3 witness: exhausted budget issues no call and keeps the cursor;
positive budget issues a call. -/
theorem c3_first_slice_budget_gate_witness :
    (executarEnvioDireto envBudget0 [(), ()] 0 2 0 25000 29000 4000 2
      false ⟨0, 0⟩).2.nc = 0 ∧
    0 < (executarEnvioDireto envNeutral [(), ()] 0 2 0 25000 29000 4000 2
      false ⟨0, 0⟩).2.nc := by
  constructor
  · exact (c3_first_slice_budget_gate envBudget0 [(), ()] 0 2 0 25000 29000 4000 2 ⟨0, 0⟩
      (by norm_num)).1 (by norm_num [calcEffectiveTimeout, envBudget0])
  · exact (c3_first_slice_budget_gate envNeutral [(), ()] 0 2 0 25000 29000 4000 2 ⟨0, 0⟩
      (by norm_num)).2 (by norm_num [calcEffectiveTimeout, envNeutral])

/-- C2 counterexample: a zero-progress slice that reaches the end of the
input yields a `finished` payload whose nextOffset is null rather than the
starting offset; and a server over-reporting its counts makes the
returned nextOffset (50) exceed the total number of records (10). -/
theorem c2_counterexample :
    ((sendDuplicateAware envBudget0 29000 4000 25000 2 [()] ⟨0, 0⟩).1.accepted +
      (sendDuplicateAware envBudget0 29000 4000 25000 2 [()] ⟨0, 0⟩).1.skippedDuplicates
        = 0) ∧
    payloadNextOffset (executarEnvioDireto envBudget0 [()] 0 2 0 25000 29000 4000 1
      false ⟨0, 0⟩).1.payload = none ∧
    payloadNextOffset (executarEnvioDireto envOverReport (List.replicate 10 ()) 0 2 0 25000
      29000 4000 10 false ⟨0, 0⟩).1.payload = some 50 ∧
    ¬ ((50 : Int) ≤ ((List.replicate 10 ()).length : Int)) := by
  refine ⟨?_, ?_, ?_, by simp⟩
  · simp +decide [sendDuplicateAware, envBudget0, calcEffectiveTimeout]
  · simp +decide [executarEnvioDireto, envBudget0, sendDuplicateAware,
      sendBatchesDirectToFlowch, enviarLote, calcEffectiveTimeout, extractCounts,
      safeParseIfJson, jsTruthy, jsGet, num, jsOr, bodyTruthy, firstBodyString,
      isCountedAsError, getStatus, isOk, reparseFirstBody, strOfOrEmpty, jsStrUpper,
      jsStrLower, strIncludes, charsContains, charsStartsWith, jsStringify, jsonEscape,
      isWholeBatchDuplicate, alreadyExistsOfError, jsIndex, jsToString, strToNumOr0,
      buildSummary, payloadNextOffset]
  · simp +decide [executarEnvioDireto, envOverReport, sendDuplicateAware,
      sendBatchesDirectToFlowch, sendBatchesAux, dividirEmLotes, dividirAux, enviarLote,
      calcEffectiveTimeout, extractCounts, safeParseIfJson, jsTruthy, jsGet, num, jsOr,
      bodyTruthy, firstBodyString, isCountedAsError, getStatus, isOk, reparseFirstBody,
      strOfOrEmpty, jsStrUpper, jsStrLower, strIncludes, charsContains, charsStartsWith,
      jsStringify, jsonEscape, isWholeBatchDuplicate, alreadyExistsOfError, jsIndex,
      jsToString, strToNumOr0, buildSummary, payloadNextOffset, List.replicate]

/-- C2 (amended): when the controller returns a numeric nextOffset it is
never below the starting offset and, provided the transport never reports
more extracted records than were posted, never above the total record
count; and a zero-progress non-fatal slice with records remaining beyond
it yields a 206 checkpoint whose nextOffset equals the starting offset.
(The original claim fails when a zero-progress slice reaches the end of
the input — the response is then 200/done with a null nextOffset — and
the upper bound needs the server-honesty hypothesis, since the code does
not clamp server-reported counts.) -/
theorem c2_next_offset_policy {α : Type} (env : Env α) (registros : List α)
    (offsetInicial : Nat) (batchSize batchSizeSugerido timeoutMs apigwSoftTimeoutMs
    margemSegurancaMs totalLinhas : Int) (st : St)
    (Hcall : ∀ k (w : List α),
      extractedTotal (enviarLote (env.call k w)).2 ≤ (w.length : Int)) :
    (∀ n, payloadNextOffset (executarEnvioDireto env registros offsetInicial batchSize
        batchSizeSugerido timeoutMs apigwSoftTimeoutMs margemSegurancaMs totalLinhas
        false st).1.payload = some n →
      (offsetInicial : Int) ≤ n ∧ n ≤ (registros.length : Int)) ∧
    ((controllerRun env registros offsetInicial batchSize batchSizeSugerido timeoutMs
        apigwSoftTimeoutMs margemSegurancaMs st).1.accepted +
      (controllerRun env registros offsetInicial batchSize batchSizeSugerido timeoutMs
        apigwSoftTimeoutMs margemSegurancaMs st).1.skippedDuplicates = 0 →
      (controllerRun env registros offsetInicial batchSize batchSizeSugerido timeoutMs
        apigwSoftTimeoutMs margemSegurancaMs st).1.fatalError = none →
      min (min offsetInicial registros.length +
        (if (if batchSizeSugerido > 0 then batchSizeSugerido else (0 : Int)) > 0
          then (if batchSizeSugerido > 0 then batchSizeSugerido else 0)
          else (if batchSize > 0 then batchSize else 20)).toNat) registros.length <
        registros.length →
      (executarEnvioDireto env registros offsetInicial batchSize batchSizeSugerido timeoutMs
        apigwSoftTimeoutMs margemSegurancaMs totalLinhas false st).1.statusCode = 206 ∧
      payloadNextOffset (executarEnvioDireto env registros offsetInicial batchSize
        batchSizeSugerido timeoutMs apigwSoftTimeoutMs margemSegurancaMs totalLinhas
        false st).1.payload = some (offsetInicial : Int)) := by
  have hbe : 0 < (if (if batchSizeSugerido > 0 then batchSizeSugerido else (0 : Int)) > 0
      then (if batchSizeSugerido > 0 then batchSizeSugerido else 0)
      else (if batchSize > 0 then batchSize else 20)).toNat := by
    split_ifs <;> omega
  by_cases hoff : offsetInicial < registros.length
  · have hprog0 := sendDA_nonneg env apigwSoftTimeoutMs margemSegurancaMs timeoutMs
      (if (if batchSizeSugerido > 0 then batchSizeSugerido else (0 : Int)) > 0
        then (if batchSizeSugerido > 0 then batchSizeSugerido else 0)
        else (if batchSize > 0 then batchSize else 20))
      ((registros.drop (min offsetInicial registros.length)).take
        (min (min offsetInicial registros.length +
          (if (if batchSizeSugerido > 0 then batchSizeSugerido else (0 : Int)) > 0
            then (if batchSizeSugerido > 0 then batchSizeSugerido else 0)
            else (if batchSize > 0 then batchSize else 20)).toNat) registros.length -
          min offsetInicial registros.length)).length
      ((registros.drop (min offsetInicial registros.length)).take
        (min (min offsetInicial registros.length +
          (if (if batchSizeSugerido > 0 then batchSizeSugerido else (0 : Int)) > 0
            then (if batchSizeSugerido > 0 then batchSizeSugerido else 0)
            else (if batchSize > 0 then batchSize else 20)).toNat) registros.length -
          min offsetInicial registros.length)) rfl st
    have hprogle := sendDA_le env apigwSoftTimeoutMs margemSegurancaMs timeoutMs
      (if (if batchSizeSugerido > 0 then batchSizeSugerido else (0 : Int)) > 0
        then (if batchSizeSugerido > 0 then batchSizeSugerido else 0)
        else (if batchSize > 0 then batchSize else 20)) Hcall
      ((registros.drop (min offsetInicial registros.length)).take
        (min (min offsetInicial registros.length +
          (if (if batchSizeSugerido > 0 then batchSizeSugerido else (0 : Int)) > 0
            then (if batchSizeSugerido > 0 then batchSizeSugerido else 0)
            else (if batchSize > 0 then batchSize else 20)).toNat) registros.length -
          min offsetInicial registros.length)).length
      ((registros.drop (min offsetInicial registros.length)).take
        (min (min offsetInicial registros.length +
          (if (if batchSizeSugerido > 0 then batchSizeSugerido else (0 : Int)) > 0
            then (if batchSizeSugerido > 0 then batchSizeSugerido else 0)
            else (if batchSize > 0 then batchSize else 20)).toNat) registros.length -
          min offsetInicial registros.length)) rfl st
    simp only [List.length_take, List.length_drop] at hprogle
    rw [executarEnvioDireto]
    dsimp only
    rw [if_neg (by simp)]
    rw [if_pos (show min offsetInicial registros.length < registros.length by omega)]
    rw [if_neg ?hfa]
    case hfa =>
      simp only [List.length_take, List.length_drop]
      omega
    constructor
    · intro n hn
      by_cases hfat : ¬(sendDuplicateAware env apigwSoftTimeoutMs margemSegurancaMs timeoutMs
          (if (if batchSizeSugerido > 0 then batchSizeSugerido else (0 : Int)) > 0
            then (if batchSizeSugerido > 0 then batchSizeSugerido else 0)
            else (if batchSize > 0 then batchSize else 20))
          ((registros.drop (min offsetInicial registros.length)).take
            (min (min offsetInicial registros.length +
              (if (if batchSizeSugerido > 0 then batchSizeSugerido else (0 : Int)) > 0
                then (if batchSizeSugerido > 0 then batchSizeSugerido else 0)
                else (if batchSize > 0 then batchSize else 20)).toNat) registros.length -
              min offsetInicial registros.length)) st).1.fatalError = none ∧
          (sendDuplicateAware env apigwSoftTimeoutMs margemSegurancaMs timeoutMs
          (if (if batchSizeSugerido > 0 then batchSizeSugerido else (0 : Int)) > 0
            then (if batchSizeSugerido > 0 then batchSizeSugerido else 0)
            else (if batchSize > 0 then batchSize else 20))
          ((registros.drop (min offsetInicial registros.length)).take
            (min (min offsetInicial registros.length +
              (if (if batchSizeSugerido > 0 then batchSizeSugerido else (0 : Int)) > 0
                then (if batchSizeSugerido > 0 then batchSizeSugerido else 0)
                else (if batchSize > 0 then batchSize else 20)).toNat) registros.length -
              min offsetInicial registros.length)) st).1.accepted +
          (sendDuplicateAware env apigwSoftTimeoutMs margemSegurancaMs timeoutMs
          (if (if batchSizeSugerido > 0 then batchSizeSugerido else (0 : Int)) > 0
            then (if batchSizeSugerido > 0 then batchSizeSugerido else 0)
            else (if batchSize > 0 then batchSize else 20))
          ((registros.drop (min offsetInicial registros.length)).take
            (min (min offsetInicial registros.length +
              (if (if batchSizeSugerido > 0 then batchSizeSugerido else (0 : Int)) > 0
                then (if batchSizeSugerido > 0 then batchSizeSugerido else 0)
                else (if batchSize > 0 then batchSize else 20)).toNat) registros.length -
              min offsetInicial registros.length)) st).1.skippedDuplicates = 0
      · rw [if_pos hfat] at hn
        dsimp only [payloadNextOffset] at hn
        exact absurd hn (by simp)
      · rw [if_neg hfat] at hn
        by_cases htm : min (min offsetInicial registros.length +
            (if (if batchSizeSugerido > 0 then batchSizeSugerido else (0 : Int)) > 0
              then (if batchSizeSugerido > 0 then batchSizeSugerido else 0)
              else (if batchSize > 0 then batchSize else 20)).toNat) registros.length <
            registros.length
        · rw [if_pos htm] at hn
          dsimp only [payloadNextOffset] at hn
          have hn2 := Option.some.inj hn
          by_cases hpos : (sendDuplicateAware env apigwSoftTimeoutMs margemSegurancaMs
              timeoutMs
              (if (if batchSizeSugerido > 0 then batchSizeSugerido else (0 : Int)) > 0
                then (if batchSizeSugerido > 0 then batchSizeSugerido else 0)
                else (if batchSize > 0 then batchSize else 20))
              ((registros.drop (min offsetInicial registros.length)).take
                (min (min offsetInicial registros.length +
                  (if (if batchSizeSugerido > 0 then batchSizeSugerido else (0 : Int)) > 0
                    then (if batchSizeSugerido > 0 then batchSizeSugerido else 0)
                    else (if batchSize > 0 then batchSize else 20)).toNat)
                  registros.length - min offsetInicial registros.length)) st).1.accepted +
              (sendDuplicateAware env apigwSoftTimeoutMs margemSegurancaMs timeoutMs
              (if (if batchSizeSugerido > 0 then batchSizeSugerido else (0 : Int)) > 0
                then (if batchSizeSugerido > 0 then batchSizeSugerido else 0)
                else (if batchSize > 0 then batchSize else 20))
              ((registros.drop (min offsetInicial registros.length)).take
                (min (min offsetInicial registros.length +
                  (if (if batchSizeSugerido > 0 then batchSizeSugerido else (0 : Int)) > 0
                    then (if batchSizeSugerido > 0 then batchSizeSugerido else 0)
                    else (if batchSize > 0 then batchSize else 20)).toNat)
                  registros.length -
                  min offsetInicial registros.length)) st).1.skippedDuplicates > 0
          · rw [if_pos hpos] at hn2
            omega
          · rw [if_neg hpos] at hn2
            omega
        · rw [if_neg htm] at hn
          dsimp only [payloadNextOffset] at hn
          exact absurd hn (by simp)
    · intro hz hf htm
      dsimp only [controllerRun] at hz hf
      rw [if_neg ?hnotfatal]
      case hnotfatal =>
        rintro ⟨hc1, _hc2⟩
        exact hc1 hf
      rw [if_pos htm]
      refine ⟨rfl, ?_⟩
      dsimp only [payloadNextOffset]
      rw [if_neg (by omega)]
  · constructor
    · intro n hn
      rw [executarEnvioDireto] at hn
      dsimp only at hn
      rw [if_neg (by simp)] at hn
      rw [if_neg (show ¬ min offsetInicial registros.length < registros.length by
        omega)] at hn
      dsimp only [payloadNextOffset] at hn
      exact absurd hn (by simp)
    · intro _ _ htm
      exfalso
      revert htm
      generalize (if (if batchSizeSugerido > 0 then batchSizeSugerido else (0 : Int)) > 0
        then (if batchSizeSugerido > 0 then batchSizeSugerido else 0)
        else (if batchSize > 0 then batchSize else 20)).toNat = t
      omega

/-- C2 witness: a zero-progress slice with records remaining yields a 206
checkpoint holding the starting offset. -/
theorem c2_next_offset_policy_witness :
    (executarEnvioDireto envBudget0 [(), (), ()] 0 2 0 25000 29000 4000 3
      false ⟨0, 0⟩).1.statusCode = 206 ∧
    payloadNextOffset (executarEnvioDireto envBudget0 [(), (), ()] 0 2 0 25000 29000 4000 3
      false ⟨0, 0⟩).1.payload = some 0 := by
  have h := (c2_next_offset_policy envBudget0 [(), (), ()] 0 2 0 25000 29000 4000 3 ⟨0, 0⟩
    (by
      intro k w
      have : extractedTotal (enviarLote (envBudget0.call k w)).2 = 0 := by
        simp +decide [envBudget0, enviarLote, extractedTotal, extractCounts,
          safeParseIfJson, jsGet, num, jsTruthy, bodyTruthy, jsOr, alreadyExistsOfError,
          jsIndex, strToNumOr0]
      simp [this])).2
    (by
      simp +decide [controllerRun, envBudget0, sendDuplicateAware,
        sendBatchesDirectToFlowch, sendBatchesAux, dividirEmLotes, dividirAux, enviarLote,
        calcEffectiveTimeout, extractCounts, safeParseIfJson, jsTruthy, jsGet, num, jsOr,
        bodyTruthy, firstBodyString, isCountedAsError, getStatus, isOk, reparseFirstBody,
        strOfOrEmpty, jsStrUpper, jsStrLower, strIncludes, charsContains, charsStartsWith,
        jsStringify, jsonEscape, isWholeBatchDuplicate, alreadyExistsOfError, jsIndex,
        jsToString, strToNumOr0])
    (by
      simp +decide [controllerRun, envBudget0, sendDuplicateAware,
        sendBatchesDirectToFlowch, sendBatchesAux, dividirEmLotes, dividirAux, enviarLote,
        calcEffectiveTimeout, extractCounts, safeParseIfJson, jsTruthy, jsGet, num, jsOr,
        bodyTruthy, firstBodyString, isCountedAsError, getStatus, isOk, reparseFirstBody,
        strOfOrEmpty, jsStrUpper, jsStrLower, strIncludes, charsContains, charsStartsWith,
        jsStringify, jsonEscape, isWholeBatchDuplicate, alreadyExistsOfError, jsIndex,
        jsToString, strToNumOr0])
    (by norm_num)
  exact h

/-- C8 counterexample: a fatal schema error with zero progress makes the
controller pass through status 400 — neither the claimed 206 checkpoint
nor the claimed 200 completion. -/
theorem c8_counterexample :
    ¬ ((executarEnvioDireto envSchema [()] 0 2 0 25000 29000 4000 1 false
        ⟨0, 0⟩).1.statusCode = 206 ∨
      (executarEnvioDireto envSchema [()] 0 2 0 25000 29000 4000 1 false
        ⟨0, 0⟩).1.statusCode = 200) := by
  have h : (executarEnvioDireto envSchema [()] 0 2 0 25000 29000 4000 1 false
      ⟨0, 0⟩).1.statusCode = 400 := by
    simp +decide [executarEnvioDireto, envSchema, sendDuplicateAware,
      sendBatchesDirectToFlowch, sendBatchesAux, dividirEmLotes, dividirAux, enviarLote,
      calcEffectiveTimeout, extractCounts, safeParseIfJson, jsTruthy, jsGet, num, jsOr,
      bodyTruthy, firstBodyString, isCountedAsError, getStatus, isOk, reparseFirstBody,
      strOfOrEmpty, jsStrUpper, jsStrLower, strIncludes, charsContains, charsStartsWith,
      jsStringify, jsonEscape, isWholeBatchDuplicate, alreadyExistsOfError, jsIndex,
      jsToString, strToNumOr0, buildSummary]
  rw [h]
  norm_num

/-- C8 (amended): provided the fatal-error escape is not taken, the
non-dry-run controller answers 206 with Retry-After, x-batch-size and
x-suggest-batch-size headers and a checkpoint payload when records remain
beyond the slice, and 200 with a finished payload (and no Retry-After)
when the slice reaches the end of the input or the offset is already past
it. (The original claim omitted the fatal passthrough, which returns the
upstream status — e.g. 400 — instead.) -/
theorem c8_single_slice_responses {α : Type} (env : Env α) (registros : List α)
    (offsetInicial : Nat) (batchSize batchSizeSugerido timeoutMs apigwSoftTimeoutMs
    margemSegurancaMs totalLinhas : Int) (st : St)
    (hnf : ¬ ((controllerRun env registros offsetInicial batchSize batchSizeSugerido
        timeoutMs apigwSoftTimeoutMs margemSegurancaMs st).1.fatalError ≠ none ∧
      (controllerRun env registros offsetInicial batchSize batchSizeSugerido timeoutMs
        apigwSoftTimeoutMs margemSegurancaMs st).1.accepted +
      (controllerRun env registros offsetInicial batchSize batchSizeSugerido timeoutMs
        apigwSoftTimeoutMs margemSegurancaMs st).1.skippedDuplicates = 0)) :
    (offsetInicial < registros.length →
      min (min offsetInicial registros.length +
        (if (if batchSizeSugerido > 0 then batchSizeSugerido else (0 : Int)) > 0
          then (if batchSizeSugerido > 0 then batchSizeSugerido else 0)
          else (if batchSize > 0 then batchSize else 20)).toNat) registros.length <
        registros.length →
      (executarEnvioDireto env registros offsetInicial batchSize batchSizeSugerido timeoutMs
        apigwSoftTimeoutMs margemSegurancaMs totalLinhas false st).1.statusCode = 206 ∧
      ("Retry-After", "1") ∈ (executarEnvioDireto env registros offsetInicial batchSize
        batchSizeSugerido timeoutMs apigwSoftTimeoutMs margemSegurancaMs totalLinhas
        false st).1.headers ∧
      ("x-batch-size", toString (if batchSize > 0 then batchSize else (20 : Int))) ∈
        (executarEnvioDireto env registros offsetInicial batchSize batchSizeSugerido
          timeoutMs apigwSoftTimeoutMs margemSegurancaMs totalLinhas false st).1.headers ∧
      (∃ v, ("x-suggest-batch-size", v) ∈ (executarEnvioDireto env registros offsetInicial
        batchSize batchSizeSugerido timeoutMs apigwSoftTimeoutMs margemSegurancaMs
        totalLinhas false st).1.headers) ∧
      (∃ n sg sm, (executarEnvioDireto env registros offsetInicial batchSize
        batchSizeSugerido timeoutMs apigwSoftTimeoutMs margemSegurancaMs totalLinhas
        false st).1.payload = .checkpoint n sg sm)) ∧
    (offsetInicial < registros.length →
      ¬ (min (min offsetInicial registros.length +
        (if (if batchSizeSugerido > 0 then batchSizeSugerido else (0 : Int)) > 0
          then (if batchSizeSugerido > 0 then batchSizeSugerido else 0)
          else (if batchSize > 0 then batchSize else 20)).toNat) registros.length <
        registros.length) →
      (executarEnvioDireto env registros offsetInicial batchSize batchSizeSugerido timeoutMs
        apigwSoftTimeoutMs margemSegurancaMs totalLinhas false st).1.statusCode = 200 ∧
      (∃ sm, (executarEnvioDireto env registros offsetInicial batchSize batchSizeSugerido
        timeoutMs apigwSoftTimeoutMs margemSegurancaMs totalLinhas false
        st).1.payload = .finished sm) ∧
      ¬ ("Retry-After", "1") ∈ (executarEnvioDireto env registros offsetInicial batchSize
        batchSizeSugerido timeoutMs apigwSoftTimeoutMs margemSegurancaMs totalLinhas
        false st).1.headers) ∧
    (¬ offsetInicial < registros.length →
      (executarEnvioDireto env registros offsetInicial batchSize batchSizeSugerido timeoutMs
        apigwSoftTimeoutMs margemSegurancaMs totalLinhas false st).1.statusCode = 200 ∧
      ∃ sm, (executarEnvioDireto env registros offsetInicial batchSize batchSizeSugerido
        timeoutMs apigwSoftTimeoutMs margemSegurancaMs totalLinhas false
        st).1.payload = .finished sm) := by
  have hbe : 0 < (if (if batchSizeSugerido > 0 then batchSizeSugerido else (0 : Int)) > 0
      then (if batchSizeSugerido > 0 then batchSizeSugerido else 0)
      else (if batchSize > 0 then batchSize else 20)).toNat := by
    split_ifs <;> omega
  dsimp only [controllerRun] at hnf
  refine ⟨fun hoff htm => ?_, fun hoff htm => ?_, fun hoff => ?_⟩
  · rw [executarEnvioDireto]
    dsimp only
    rw [if_neg (show ¬ (false = true) by simp)]
    rw [if_pos (show min offsetInicial registros.length < registros.length by omega)]
    rw [if_neg ?hfa]
    case hfa =>
      simp only [List.length_take, List.length_drop]
      omega
    rw [if_neg hnf]
    rw [if_pos htm]
    refine ⟨rfl, List.mem_append_right _ (List.Mem.head _),
      List.mem_append_left _ (List.Mem.tail _ (List.Mem.head _)),
      ⟨_, List.mem_append_left _ (List.Mem.tail _ (List.Mem.tail _ (List.Mem.head _)))⟩,
      ⟨_, _, _, rfl⟩⟩
  · rw [executarEnvioDireto]
    dsimp only
    rw [if_neg (show ¬ (false = true) by simp)]
    rw [if_pos (show min offsetInicial registros.length < registros.length by omega)]
    rw [if_neg ?hfb]
    case hfb =>
      simp only [List.length_take, List.length_drop]
      omega
    rw [if_neg hnf]
    rw [if_neg htm]
    refine ⟨rfl, ⟨_, rfl⟩, ?_⟩
    simp
  · rw [executarEnvioDireto]
    dsimp only
    rw [if_neg (show ¬ (false = true) by simp)]
    rw [if_neg (show ¬ min offsetInicial registros.length < registros.length by omega)]
    exact ⟨rfl, ⟨_, rfl⟩⟩

/-- C8 witness: a mid-input slice yields 206 with a Retry-After header;
an offset past the end yields 200. -/
theorem c8_single_slice_responses_witness :
    ((executarEnvioDireto envNeutral [(), ()] 0 1 0 25000 29000 4000 2 false
        ⟨0, 0⟩).1.statusCode = 206 ∧
      ("Retry-After", "1") ∈ (executarEnvioDireto envNeutral [(), ()] 0 1 0 25000 29000
        4000 2 false ⟨0, 0⟩).1.headers) ∧
    (executarEnvioDireto envNeutral [(), ()] 2 1 0 25000 29000 4000 2 false
      ⟨0, 0⟩).1.statusCode = 200 := by
  have h1 := (c8_single_slice_responses envNeutral [(), ()] 0 1 0 25000 29000 4000 2 ⟨0, 0⟩
    (by
      simp +decide [controllerRun, envNeutral, sendDuplicateAware,
        sendBatchesDirectToFlowch, sendBatchesAux, dividirEmLotes, dividirAux, enviarLote,
        calcEffectiveTimeout, extractCounts, safeParseIfJson, jsTruthy, jsGet, num, jsOr,
        bodyTruthy, firstBodyString, isCountedAsError, getStatus, isOk, reparseFirstBody,
        strOfOrEmpty, jsStrUpper, jsStrLower, strIncludes, charsContains, charsStartsWith,
        jsStringify, jsonEscape, isWholeBatchDuplicate, alreadyExistsOfError, jsIndex,
        jsToString, strToNumOr0])).1 (by norm_num) (by norm_num)
  have h2 := (c8_single_slice_responses envNeutral [(), ()] 2 1 0 25000 29000 4000 2 ⟨0, 0⟩
    (by
      simp +decide [controllerRun, envNeutral, sendDuplicateAware,
        sendBatchesDirectToFlowch, sendBatchesAux, dividirEmLotes, dividirAux, enviarLote,
        calcEffectiveTimeout, extractCounts, safeParseIfJson, jsTruthy, jsGet, num, jsOr,
        bodyTruthy, firstBodyString, isCountedAsError, getStatus, isOk, reparseFirstBody,
        strOfOrEmpty, jsStrUpper, jsStrLower, strIncludes, charsContains, charsStartsWith,
        jsStringify, jsonEscape, isWholeBatchDuplicate, alreadyExistsOfError, jsIndex,
        jsToString, strToNumOr0])).2.2 (by norm_num)
  exact ⟨⟨h1.1, h1.2.1⟩, h2.1⟩

theorem mem_headers_ite {β : Type} {p : String × String} {c : Prop} [Decidable c]
    {a b : ControllerOut × β} (h₁ : p ∈ a.1.headers) (h₂ : p ∈ b.1.headers) :
    p ∈ (if c then a else b).1.headers := by
  split
  · exact h₁
  · exact h₂

/-- C9 counterexample: a zero-progress slice taking the fatal passthrough
(400 with a schema error) returns x-suggest-batch-size equal to the
effective batch size (20) rather than the claimed half floored at one
(10), so the suggestion policy does not hold for every processed
slice. -/
theorem c9_counterexample :
    ((sendDuplicateAware envSchema 29000 4000 25000 20 [()] ⟨0, 0⟩).1.accepted +
      (sendDuplicateAware envSchema 29000 4000 25000 20 [()] ⟨0, 0⟩).1.skippedDuplicates
        = 0) ∧
    ("x-suggest-batch-size", toString (20 : Int)) ∈
      (executarEnvioDireto envSchema [()] 0 20 0 25000 29000 4000 1 false
        ⟨0, 0⟩).1.headers ∧
    ¬ ("x-suggest-batch-size", toString (max 1 ((20 : Int) / 2))) ∈
      (executarEnvioDireto envSchema [()] 0 20 0 25000 29000 4000 1 false
        ⟨0, 0⟩).1.headers := by
  refine ⟨?_, ?_, ?_⟩
  · simp +decide [sendDuplicateAware, envSchema, sendBatchesDirectToFlowch,
      sendBatchesAux, dividirEmLotes, dividirAux, enviarLote, calcEffectiveTimeout,
      extractCounts, safeParseIfJson, jsTruthy, jsGet, num, jsOr, bodyTruthy,
      firstBodyString, isCountedAsError, getStatus, isOk, reparseFirstBody, strOfOrEmpty,
      jsStrUpper, jsStrLower, strIncludes, charsContains, charsStartsWith, jsStringify,
      jsonEscape, isWholeBatchDuplicate, alreadyExistsOfError, jsIndex, jsToString,
      strToNumOr0]
  · simp +decide [executarEnvioDireto, envSchema, sendDuplicateAware,
      sendBatchesDirectToFlowch, sendBatchesAux, dividirEmLotes, dividirAux, enviarLote,
      calcEffectiveTimeout, extractCounts, safeParseIfJson, jsTruthy, jsGet, num, jsOr,
      bodyTruthy, firstBodyString, isCountedAsError, getStatus, isOk, reparseFirstBody,
      strOfOrEmpty, jsStrUpper, jsStrLower, strIncludes, charsContains, charsStartsWith,
      jsStringify, jsonEscape, isWholeBatchDuplicate, alreadyExistsOfError, jsIndex,
      jsToString, strToNumOr0, buildSummary]
  · simp +decide [executarEnvioDireto, envSchema, sendDuplicateAware,
      sendBatchesDirectToFlowch, sendBatchesAux, dividirEmLotes, dividirAux, enviarLote,
      calcEffectiveTimeout, extractCounts, safeParseIfJson, jsTruthy, jsGet, num, jsOr,
      bodyTruthy, firstBodyString, isCountedAsError, getStatus, isOk, reparseFirstBody,
      strOfOrEmpty, jsStrUpper, jsStrLower, strIncludes, charsContains, charsStartsWith,
      jsStringify, jsonEscape, isWholeBatchDuplicate, alreadyExistsOfError, jsIndex,
      jsToString, strToNumOr0, buildSummary]

/-- C9 (amended): when the fatal-error escape is not taken, the
x-suggest-batch-size header follows the suggestion policy: half the
effective batch size floored at 1 on zero progress; the previous
suggestion (positive and at most the effective size) when progress came
via adaptive splitting; 0 (reset to nominal) on clean progress.  (The
original claim fails on the fatal passthrough, where a zero-progress
slice returns the effective size itself instead of half of it.) -/
theorem c9_next_suggest_policy {α : Type} (env : Env α) (registros : List α)
    (offsetInicial : Nat) (batchSize batchSizeSugerido timeoutMs apigwSoftTimeoutMs
    margemSegurancaMs totalLinhas : Int) (st : St)
    (hnf : ¬ ((controllerRun env registros offsetInicial batchSize batchSizeSugerido
        timeoutMs apigwSoftTimeoutMs margemSegurancaMs st).1.fatalError ≠ none ∧
      (controllerRun env registros offsetInicial batchSize batchSizeSugerido timeoutMs
        apigwSoftTimeoutMs margemSegurancaMs st).1.accepted +
      (controllerRun env registros offsetInicial batchSize batchSizeSugerido timeoutMs
        apigwSoftTimeoutMs margemSegurancaMs st).1.skippedDuplicates = 0))
    (hoff : offsetInicial < registros.length) :
    ((controllerRun env registros offsetInicial batchSize batchSizeSugerido timeoutMs
        apigwSoftTimeoutMs margemSegurancaMs st).1.accepted +
      (controllerRun env registros offsetInicial batchSize batchSizeSugerido timeoutMs
        apigwSoftTimeoutMs margemSegurancaMs st).1.skippedDuplicates = 0 →
      ("x-suggest-batch-size", toString (max 1
        ((if (if batchSizeSugerido > 0 then batchSizeSugerido else (0 : Int)) > 0
          then (if batchSizeSugerido > 0 then batchSizeSugerido else 0)
          else (if batchSize > 0 then batchSize else 20)) / 2))) ∈
        (executarEnvioDireto env registros offsetInicial batchSize batchSizeSugerido
          timeoutMs apigwSoftTimeoutMs margemSegurancaMs totalLinhas false
          st).1.headers) ∧
    (0 < (controllerRun env registros offsetInicial batchSize batchSizeSugerido timeoutMs
        apigwSoftTimeoutMs margemSegurancaMs st).1.accepted +
      (controllerRun env registros offsetInicial batchSize batchSizeSugerido timeoutMs
        apigwSoftTimeoutMs margemSegurancaMs st).1.skippedDuplicates →
      (controllerRun env registros offsetInicial batchSize batchSizeSugerido timeoutMs
        apigwSoftTimeoutMs margemSegurancaMs st).1.usedAdaptiveSplit = true →
      ("x-suggest-batch-size", toString
        (if (if batchSizeSugerido > 0 then batchSizeSugerido else (0 : Int)) > 0
          then (if batchSizeSugerido > 0 then batchSizeSugerido else 0)
          else (if (if batchSizeSugerido > 0 then batchSizeSugerido else (0 : Int)) > 0
            then (if batchSizeSugerido > 0 then batchSizeSugerido else 0)
            else (if batchSize > 0 then batchSize else 20)))) ∈
        (executarEnvioDireto env registros offsetInicial batchSize batchSizeSugerido
          timeoutMs apigwSoftTimeoutMs margemSegurancaMs totalLinhas false
          st).1.headers ∧
      0 < (if (if batchSizeSugerido > 0 then batchSizeSugerido else (0 : Int)) > 0
          then (if batchSizeSugerido > 0 then batchSizeSugerido else 0)
          else (if (if batchSizeSugerido > 0 then batchSizeSugerido else (0 : Int)) > 0
            then (if batchSizeSugerido > 0 then batchSizeSugerido else 0)
            else (if batchSize > 0 then batchSize else 20))) ∧
      (if (if batchSizeSugerido > 0 then batchSizeSugerido else (0 : Int)) > 0
          then (if batchSizeSugerido > 0 then batchSizeSugerido else 0)
          else (if (if batchSizeSugerido > 0 then batchSizeSugerido else (0 : Int)) > 0
            then (if batchSizeSugerido > 0 then batchSizeSugerido else 0)
            else (if batchSize > 0 then batchSize else 20))) ≤
        (if (if batchSizeSugerido > 0 then batchSizeSugerido else (0 : Int)) > 0
          then (if batchSizeSugerido > 0 then batchSizeSugerido else 0)
          else (if batchSize > 0 then batchSize else 20))) ∧
    (0 < (controllerRun env registros offsetInicial batchSize batchSizeSugerido timeoutMs
        apigwSoftTimeoutMs margemSegurancaMs st).1.accepted +
      (controllerRun env registros offsetInicial batchSize batchSizeSugerido timeoutMs
        apigwSoftTimeoutMs margemSegurancaMs st).1.skippedDuplicates →
      ¬ (controllerRun env registros offsetInicial batchSize batchSizeSugerido timeoutMs
        apigwSoftTimeoutMs margemSegurancaMs st).1.usedAdaptiveSplit = true →
      ("x-suggest-batch-size", toString (0 : Int)) ∈
        (executarEnvioDireto env registros offsetInicial batchSize batchSizeSugerido
          timeoutMs apigwSoftTimeoutMs margemSegurancaMs totalLinhas false
          st).1.headers) := by
  have hbe : 0 < (if (if batchSizeSugerido > 0 then batchSizeSugerido else (0 : Int)) > 0
      then (if batchSizeSugerido > 0 then batchSizeSugerido else 0)
      else (if batchSize > 0 then batchSize else 20)).toNat := by
    split_ifs <;> omega
  dsimp only [controllerRun] at hnf
  refine ⟨fun hz => ?_, fun hp hu => ?_, fun hp hu => ?_⟩
  · dsimp only [controllerRun] at hz
    rw [executarEnvioDireto]
    dsimp only
    rw [if_neg (show ¬ (false = true) by simp)]
    rw [if_pos (show min offsetInicial registros.length < registros.length by omega)]
    rw [if_neg (show ¬ (((registros.drop (min offsetInicial registros.length)).take
        (min (min offsetInicial registros.length +
          (if (if batchSizeSugerido > 0 then batchSizeSugerido else (0 : Int)) > 0
            then (if batchSizeSugerido > 0 then batchSizeSugerido else 0)
            else (if batchSize > 0 then batchSize else 20)).toNat) registros.length -
          min offsetInicial registros.length)).length = 0) from by
      simp only [List.length_take, List.length_drop]
      omega)]
    rw [if_neg hnf]
    rw [if_pos hz]
    exact mem_headers_ite
      (List.mem_append_left _ (List.Mem.tail _ (List.Mem.tail _ (List.Mem.head _))))
      (List.Mem.tail _ (List.Mem.tail _ (List.Mem.head _)))
  · dsimp only [controllerRun] at hp hu
    have hz' := ne_of_gt hp
    rw [executarEnvioDireto]
    dsimp only
    rw [if_neg (show ¬ (false = true) by simp)]
    rw [if_pos (show min offsetInicial registros.length < registros.length by omega)]
    rw [if_neg (show ¬ (((registros.drop (min offsetInicial registros.length)).take
        (min (min offsetInicial registros.length +
          (if (if batchSizeSugerido > 0 then batchSizeSugerido else (0 : Int)) > 0
            then (if batchSizeSugerido > 0 then batchSizeSugerido else 0)
            else (if batchSize > 0 then batchSize else 20)).toNat) registros.length -
          min offsetInicial registros.length)).length = 0) from by
      simp only [List.length_take, List.length_drop]
      omega)]
    rw [if_neg hnf]
    rw [if_neg hz']
    rw [if_pos hu]
    refine ⟨?_, by split_ifs <;> omega, by split_ifs <;> omega⟩
    exact mem_headers_ite
      (List.mem_append_left _ (List.Mem.tail _ (List.Mem.tail _ (List.Mem.head _))))
      (List.Mem.tail _ (List.Mem.tail _ (List.Mem.head _)))
  · dsimp only [controllerRun] at hp hu
    have hz' := ne_of_gt hp
    rw [executarEnvioDireto]
    dsimp only
    rw [if_neg (show ¬ (false = true) by simp)]
    rw [if_pos (show min offsetInicial registros.length < registros.length by omega)]
    rw [if_neg (show ¬ (((registros.drop (min offsetInicial registros.length)).take
        (min (min offsetInicial registros.length +
          (if (if batchSizeSugerido > 0 then batchSizeSugerido else (0 : Int)) > 0
            then (if batchSizeSugerido > 0 then batchSizeSugerido else 0)
            else (if batchSize > 0 then batchSize else 20)).toNat) registros.length -
          min offsetInicial registros.length)).length = 0) from by
      simp only [List.length_take, List.length_drop]
      omega)]
    rw [if_neg hnf]
    rw [if_neg hz']
    rw [if_neg hu]
    exact mem_headers_ite
      (List.mem_append_left _ (List.Mem.tail _ (List.Mem.tail _ (List.Mem.head _))))
      (List.Mem.tail _ (List.Mem.tail _ (List.Mem.head _)))

/-- C9 witness: with effective batch size 2 and a zero-progress slice the
suggested size is halved to 1. -/
theorem c9_next_suggest_policy_witness :
    ("x-suggest-batch-size", toString (max 1
      ((if (if (0 : Int) > 0 then (0 : Int) else 0) > 0
        then (if (0 : Int) > 0 then (0 : Int) else 0)
        else (if (2 : Int) > 0 then (2 : Int) else 20)) / 2))) ∈
      (executarEnvioDireto envBudget0 [(), (), ()] 0 2 0 25000 29000 4000 3 false
        ⟨0, 0⟩).1.headers := by
  have h := (c9_next_suggest_policy envBudget0 [(), (), ()] 0 2 0 25000 29000 4000 3 ⟨0, 0⟩
    (by
      simp +decide [controllerRun, envBudget0, sendDuplicateAware,
        sendBatchesDirectToFlowch, sendBatchesAux, dividirEmLotes, dividirAux, enviarLote,
        calcEffectiveTimeout, extractCounts, safeParseIfJson, jsTruthy, jsGet, num, jsOr,
        bodyTruthy, firstBodyString, isCountedAsError, getStatus, isOk, reparseFirstBody,
        strOfOrEmpty, jsStrUpper, jsStrLower, strIncludes, charsContains, charsStartsWith,
        jsStringify, jsonEscape, isWholeBatchDuplicate, alreadyExistsOfError, jsIndex,
        jsToString, strToNumOr0])
    (by norm_num)).1
    (by
      simp +decide [controllerRun, envBudget0, sendDuplicateAware,
        sendBatchesDirectToFlowch, sendBatchesAux, dividirEmLotes, dividirAux, enviarLote,
        calcEffectiveTimeout, extractCounts, safeParseIfJson, jsTruthy, jsGet, num, jsOr,
        bodyTruthy, firstBodyString, isCountedAsError, getStatus, isOk, reparseFirstBody,
        strOfOrEmpty, jsStrUpper, jsStrLower, strIncludes, charsContains, charsStartsWith,
        jsStringify, jsonEscape, isWholeBatchDuplicate, alreadyExistsOfError, jsIndex,
        jsToString, strToNumOr0])
  exact h
